import Mathlib

/-!
Verification of the Brewst interactive session controller (the `DashboardView`
Bubble Tea model), shallowly embedded from the Go source.  The controller is a
pure step function `(state, message) → (state, emitted effects)`; external
calls into the Homebrew client (the Package Manager Client) are recorded as
`Effect` values, and asynchronous completions come back as `Msg` values.
-/

namespace Brewst

/-- brew.PackageType: formula or cask. -/
inductive PackageType
  | Formula
  | Cask
deriving Repr, DecidableEq

/-- brew.Package (types.go): identity and status snapshot of a package. -/
structure Package where
  name : String
  fullName : String
  version : String
  description : String
  homepage : String
  ptype : PackageType
  installed : Bool
  outdated : Bool
  pinned : Bool
deriving Repr, DecidableEq

/-- brew.PackageInfo (types.go): detailed info (embedded Package + deps). -/
structure PackageInfo where
  pkg : Package
  dependencies : List String
  buildDeps : List String
  caveats : String
deriving Repr, DecidableEq

/-- brew.OutdatedPackage (types.go). -/
structure OutdatedPackage where
  name : String
  currentVersion : String
  latestVersion : String
  pinned : Bool
deriving Repr, DecidableEq

/-- state.State (internal/state): the shared state store.  The Go struct is
guarded by a reader/writer lock; the controller event loop is single-threaded
and never holds the lock across an asynchronous boundary, so each method is
embedded as an atomic pure update. -/
structure State where
  installedPackages : List Package
  searchResults : List Package
  outdatedPackages : List OutdatedPackage
  selectedPackage : Option Package
  loading : Bool
  loadingMsg : String
  errorMsg : String
  successMsg : String
  showFormulae : Bool
  showCasks : Bool
  onlyOutdated : Bool
  onlyPinned : Bool
  favorites : List String
  totalInstalled : Nat
  totalOutdated : Nat
deriving Repr, DecidableEq

/-- state.NewState. -/
def State.NewState : State :=
  { installedPackages := [], searchResults := [], outdatedPackages := []
    selectedPackage := none, loading := false, loadingMsg := "", errorMsg := ""
    successMsg := "", showFormulae := true, showCasks := true
    onlyOutdated := false, onlyPinned := false, favorites := []
    totalInstalled := 0, totalOutdated := 0 }

/-- State.SetInstalled. -/
def State.SetInstalled (s : State) (packages : List Package) : State :=
  { s with installedPackages := packages, totalInstalled := packages.length }

/-- State.SetOutdated. -/
def State.SetOutdated (s : State) (packages : List OutdatedPackage) : State :=
  { s with outdatedPackages := packages, totalOutdated := packages.length }

/-- State.SetError: a non-nil error stores its message, nil clears it.  The Go
error value is embedded as its `Error()` string. -/
def State.SetError (s : State) (err : Option String) : State :=
  match err with
  | some e => { s with errorMsg := e }
  | none => { s with errorMsg := "" }

/-- State.SetSuccess. -/
def State.SetSuccess (s : State) (msg : String) : State :=
  { s with successMsg := msg }

/-- The per-package filter condition of State.GetFilteredPackages: the Go loop
`continue`s (drops the package) when a filter excludes it. -/
def filterKeeps (s : State) (pkg : Package) : Bool :=
  (!(!s.showFormulae && pkg.ptype == PackageType.Formula)) &&
  (!(!s.showCasks && pkg.ptype == PackageType.Cask)) &&
  (!(s.onlyOutdated && !pkg.outdated)) &&
  (!(s.onlyPinned && !pkg.pinned))

/-- State.GetFilteredPackages: installed packages surviving the current
type/outdated/pinned filters. -/
def State.GetFilteredPackages (s : State) : List Package :=
  s.installedPackages.filter (filterKeeps s)

/-- State.IsFavorite: linear membership scan of the favorites list. -/
def State.IsFavorite (favorites : List String) (name : String) : Bool :=
  match favorites with
  | [] => false
  | fav :: rest => if fav == name then true else State.IsFavorite rest name

/-- State.ToggleFavorite: remove the first occurrence of `name`, or append it
at the end when absent. -/
def State.ToggleFavorite (favorites : List String) (name : String) : List String :=
  match favorites with
  | [] => [name]
  | fav :: rest => if fav == name then rest else fav :: State.ToggleFavorite rest name

/-- State.GetInstalledCount. -/
def State.GetInstalledCount (s : State) : Nat := s.totalInstalled

/-- State.GetOutdatedCount. -/
def State.GetOutdatedCount (s : State) : Nat := s.totalOutdated

/-- components.DialogType. -/
inductive DialogType
  | DialogConfirm
  | DialogInfo
  | DialogError
deriving Repr, DecidableEq

/-- components.Dialog: the modal confirmation dialog. -/
structure Dialog where
  title : String
  message : String
  dialogType : DialogType
  selectedBtn : Nat
  buttons : List String
  visible : Bool
deriving Repr, DecidableEq

/-- components.NewConfirmDialog. -/
def Dialog.NewConfirmDialog (title message : String) : Dialog :=
  { title := title, message := message, dialogType := DialogType.DialogConfirm
    selectedBtn := 0, buttons := ["Confirm", "Cancel"], visible := false }

/-- Dialog.Show. -/
def Dialog.Show (d : Dialog) : Dialog := { d with visible := true, selectedBtn := 0 }

/-- Dialog.SetMessage. -/
def Dialog.SetMessage (d : Dialog) (message : String) : Dialog := { d with message := message }

/-- views.PanelType: which panel holds focus. -/
inductive PanelType
  | PanelInstalled
  | PanelSearch
  | PanelDependencies
deriving Repr, DecidableEq

/-- External calls and scheduled commands emitted by one controller step
(the tea.Cmd values returned by Update, with the eventual client calls they
perform).  `TickDebounce` is the 200ms delayed trigger of
debouncedLoadPackageInfo; `EmitDialogMsg` is the command a resolving dialog
returns, delivered later as `Msg.dialogMsg`. -/
inductive Effect
  | InfoReq (name : String) (isCask : Bool)
  | SearchReq (query : String)
  | InstallReq (name : String) (cask : Bool)
  | UninstallReq (name : String) (cask : Bool)
  | UpgradeReq (names : List String)
  | DoctorReq
  | CleanupReq
  | AutoremoveReq
  | TickDebounce (pkg : Option Package) (debounceId : Nat)
  | EmitDialogMsg (confirmed : Bool)
  | SpinnerTickEff
  | RefreshPackagesEff
  | SaveFavoritesEff (favorites : List String)
  | QuitEff
  | NavigateEff (key : String)
  | EmitBackEff
  | ListInstalledReq
  | OutdatedReq
deriving Repr, DecidableEq

/-- The action tag (the controller's `pendingAction` string) of a mutating
external call, `none` for non-mutating effects.  `UpgradeReq []` is brew
`upgrade` of everything (the upgradeAll action); a non-empty list is the
single-package upgrade action. -/
def mutAction : Effect → Option String
  | Effect.InstallReq _ _ => some "install"
  | Effect.UninstallReq _ _ => some "uninstall"
  | Effect.UpgradeReq names => some (if names.isEmpty then "upgradeAll" else "upgrade")
  | Effect.DoctorReq => some "doctor"
  | Effect.CleanupReq => some "cleanup"
  | Effect.AutoremoveReq => some "autoremove"
  | _ => none

/-- An effect list free of mutating external calls. -/
def MutFree (effs : List Effect) : Prop :=
  ∀ e ∈ effs, mutAction e = none

/-- Messages consumed by DashboardView.Update.  `key` carries msg.String() of
the tea.KeyMsg plus the cursor position the external bubbles list widget would
report after processing this key (environment-chosen; the widget keeps its
cursor in range, enforced by clamping in the fall-through model).
`packagesLoaded`/`outdatedLoaded` carry no payload because the Go handler
ignores the message payload and re-reads the shared state. -/
inductive Msg
  | dialogMsg (confirmed : Bool)
  | spinnerTick
  | key (s : String) (widgetCursor : Nat)
  | debouncedLoad (pkg : Option Package) (debounceId : Nat)
  | packageInfoLoaded (info : Option PackageInfo)
  | searchResultsMsg (results : List Package)
  | packagesLoaded
  | outdatedLoaded
  | successView (msg : String)
  | errorView (err : String)
  | doctorOutput (lines : List String)
deriving Repr, DecidableEq

/-- True when msg.String() is one of the binding's keys (bubbles key.Matches
with key.WithKeys). -/
def keyIn (s : String) (keys : List String) : Bool := keys.contains s

/-- Dialog.Update: directional input moves between buttons; enter resolves
with confirmed = (selectedBtn == 0) for a confirm dialog; esc cancels.  The
emitted `EmitDialogMsg` effect is the tea.Cmd whose message is delivered back
to the controller as `Msg.dialogMsg`.  Non-key messages are ignored. -/
def Dialog.Update (d : Dialog) (msg : Msg) : Dialog × List Effect :=
  if !d.visible then (d, [])
  else
    match msg with
    | Msg.key s _ =>
      if keyIn s ["left", "h"] then
        (if d.selectedBtn > 0 then ({ d with selectedBtn := d.selectedBtn - 1 }, []) else (d, []))
      else if keyIn s ["right", "l"] then
        (if d.selectedBtn < d.buttons.length - 1 then ({ d with selectedBtn := d.selectedBtn + 1 }, []) else (d, []))
      else if keyIn s ["tab"] then
        ({ d with selectedBtn := (d.selectedBtn + 1) % d.buttons.length }, [])
      else if keyIn s ["enter"] then
        if d.dialogType == DialogType.DialogConfirm then
          ({ d with visible := false }, [Effect.EmitDialogMsg (d.selectedBtn == 0)])
        else
          ({ d with visible := false }, [Effect.EmitDialogMsg true])
      else if keyIn s ["esc"] then
        ({ d with visible := false }, [Effect.EmitDialogMsg false])
      else (d, [])
    | _ => (d, [])

/-- views.DashboardView: the session controller state.  `installedItems` and
`listIndex` model the external bubbles list widget (items plus cursor);
`searchInputFocused`/`searchInputValue` model the external bubbles textinput
(focus flag plus buffer). -/
structure DashboardView where
  state : State
  installedItems : List Package
  listIndex : Nat
  searchInputFocused : Bool
  searchInputValue : String
  searchResults : List Package
  focusedPanel : PanelType
  selectedPkg : Option Package
  packageInfo : Option PackageInfo
  loadingInfo : Bool
  searching : Bool
  installedIndex : Int
  searchIndex : Int
  depIndex : Int
  installedScroll : Int
  searchScroll : Int
  depScroll : Int
  pendingPackage : Option Package
  debounceID : Nat
  operationInProgress : Bool
  operationMessage : String
  dialog : Dialog
  pendingAction : String
  logs : List String
  logsScroll : Int
  width : Int
  height : Int
deriving Repr, DecidableEq

/-- The log-buffer update of DashboardView.addLog: append, then keep only the
last 1000 lines. -/
def addLogList (logs : List String) (msg : String) : List String :=
  let logs := logs ++ [msg]
  if logs.length > 1000 then logs.drop (logs.length - 1000) else logs

/-- DashboardView.addLog: append to the capped log buffer (only `logs`
changes). -/
def DashboardView.addLog (v : DashboardView) (msg : String) : DashboardView :=
  { v with logs := addLogList v.logs msg }

/-- DashboardView.getInstalledVisibleLines: contentHeight = height - 1 (status
bar), installed panel gets the full content height, minus 5 for title, border
and header. -/
def DashboardView.getInstalledVisibleLines (v : DashboardView) : Int :=
  let contentHeight := v.height - 1
  let installedHeight := contentHeight
  installedHeight - 5

/-- The Go expression int(float64(x) * 0.35), embedded as exact multiplication
by the IEEE-754 double nearest to 0.35 (6305039478318694 / 2^54) truncated
toward zero; the rounding of the double product itself is elided. -/
def mulPoint35Trunc (x : Int) : Int :=
  Int.tdiv (x * 6305039478318694) 18014398509481984

/-- The height-only computation of getSearchVisibleLines: 35% of the content
height, minus 7, clamped to at least 2. -/
def svlOf (h : Int) : Int :=
  let contentHeight := h - 1
  let searchHeight := mulPoint35Trunc contentHeight
  let maxLines := searchHeight - 7
  if maxLines < 2 then 2 else maxLines

/-- DashboardView.getSearchVisibleLines. -/
def DashboardView.getSearchVisibleLines (v : DashboardView) : Int := svlOf v.height

/-- The height-only computation of getDependenciesVisibleLines: 35% of the
content height, minus 6, clamped to at least 1. -/
def dvlOf (h : Int) : Int :=
  let contentHeight := h - 1
  let depTreeHeight := mulPoint35Trunc contentHeight
  let maxLines := depTreeHeight - 6
  if maxLines < 1 then 1 else maxLines

/-- DashboardView.getDependenciesVisibleLines. -/
def DashboardView.getDependenciesVisibleLines (v : DashboardView) : Int := dvlOf v.height

/-- DashboardView.updateInstalledList: refill the list widget's items from the
filtered shared state. -/
def DashboardView.updateInstalledList (v : DashboardView) : DashboardView :=
  { v with installedItems := v.state.GetFilteredPackages }

/-- DashboardView.updateSelectedPackage: re-derive selectedPkg from the
focused panel's index. -/
def DashboardView.updateSelectedPackage (v : DashboardView) : DashboardView :=
  match v.focusedPanel with
  | PanelType.PanelInstalled =>
    let packages := v.state.GetFilteredPackages
    if v.installedIndex ≥ 0 ∧ v.installedIndex < (packages.length : Int) then
      { v with selectedPkg := packages[v.installedIndex.toNat]? }
    else v
  | PanelType.PanelSearch =>
    if v.searchIndex ≥ 0 ∧ v.searchIndex < (v.searchResults.length : Int) then
      { v with selectedPkg := v.searchResults[v.searchIndex.toNat]? }
    else v
  | PanelType.PanelDependencies => v

/-- DashboardView.loadPackageInfo: set loadingInfo and issue the asynchronous
client.Info request (its completion arrives as packageInfoLoaded or
errorView). -/
def DashboardView.loadPackageInfo (v : DashboardView) (pkg : Package) :
    DashboardView × List Effect :=
  ({ v with loadingInfo := true },
   [Effect.InfoReq pkg.name (pkg.ptype == PackageType.Cask)])

/-- DashboardView.debouncedLoadPackageInfo: increment the debounce token,
record the pending package and schedule the 200ms delayed trigger carrying the
new token. -/
def DashboardView.debouncedLoadPackageInfo (v : DashboardView) (pkg : Package) :
    DashboardView × List Effect :=
  let v' := { v with debounceID := v.debounceID + 1, pendingPackage := some pkg }
  (v', [Effect.TickDebounce (some pkg) v'.debounceID])

/-- DashboardView.loadSelectedPackageInfo. -/
def DashboardView.loadSelectedPackageInfo (v : DashboardView) : DashboardView × List Effect :=
  match v.selectedPkg with
  | some pkg => v.debouncedLoadPackageInfo pkg
  | none => (v, [])

/-- DashboardView.performSearch. -/
def DashboardView.performSearch (v : DashboardView) (query : String) :
    DashboardView × List Effect :=
  ({ v with searching := true }, [Effect.SearchReq query])

/-- DashboardView.installPackage. -/
def DashboardView.installPackage (v : DashboardView) (pkg : Package) :
    DashboardView × List Effect :=
  let v := { v with operationInProgress := true
                    operationMessage := "Installing " ++ pkg.name ++ "..." }
  let v := v.addLog ("→ Installing " ++ pkg.name ++ "...")
  (v, [Effect.InstallReq pkg.name (pkg.ptype == PackageType.Cask)])

/-- DashboardView.uninstallPackage. -/
def DashboardView.uninstallPackage (v : DashboardView) (pkg : Package) :
    DashboardView × List Effect :=
  let v := { v with operationInProgress := true
                    operationMessage := "Uninstalling " ++ pkg.name ++ "..." }
  let v := v.addLog ("→ Uninstalling " ++ pkg.name ++ "...")
  (v, [Effect.UninstallReq pkg.name (pkg.ptype == PackageType.Cask)])

/-- DashboardView.upgradePackage. -/
def DashboardView.upgradePackage (v : DashboardView) (name : String) :
    DashboardView × List Effect :=
  let v := { v with operationInProgress := true
                    operationMessage := "Upgrading " ++ name ++ "..." }
  let v := v.addLog ("→ Upgrading " ++ name ++ "...")
  (v, [Effect.UpgradeReq [name]])

/-- DashboardView.upgradeAll. -/
def DashboardView.upgradeAll (v : DashboardView) : DashboardView × List Effect :=
  let v := { v with operationInProgress := true
                    operationMessage := "Upgrading all packages..." }
  let v := v.addLog "→ Upgrading all packages..."
  (v, [Effect.UpgradeReq []])

/-- DashboardView.refresh. -/
def DashboardView.refresh (v : DashboardView) : DashboardView × List Effect :=
  ({ v with operationInProgress := true
            operationMessage := "Refreshing packages..." },
   [Effect.RefreshPackagesEff])

/-- DashboardView.runDoctor. -/
def DashboardView.runDoctor (v : DashboardView) : DashboardView × List Effect :=
  let v := { v with operationInProgress := true
                    operationMessage := "Running brew doctor..." }
  let v := v.addLog "→ Running brew doctor..."
  (v, [Effect.DoctorReq])

/-- DashboardView.runCleanup. -/
def DashboardView.runCleanup (v : DashboardView) : DashboardView × List Effect :=
  let v := { v with operationInProgress := true
                    operationMessage := "Running brew cleanup..." }
  let v := v.addLog "→ Running brew cleanup..."
  (v, [Effect.CleanupReq])

/-- DashboardView.runAutoremove. -/
def DashboardView.runAutoremove (v : DashboardView) : DashboardView × List Effect :=
  let v := { v with operationInProgress := true
                    operationMessage := "Running brew autoremove..." }
  let v := v.addLog "→ Running brew autoremove..."
  (v, [Effect.AutoremoveReq])

/-- The components.DialogMsg case of DashboardView.Update: on a confirmed
resolution, dispatch the pending action and return (without clearing
pendingAction — the Go code returns early); otherwise fall through to
`v.pendingAction = ""`. -/
def DashboardView.handleDialogMsg (v : DashboardView) (confirmed : Bool) :
    DashboardView × List Effect :=
  if confirmed then
    match v.pendingAction, v.selectedPkg with
    | "install", some pkg => v.installPackage pkg
    | "uninstall", some pkg => v.uninstallPackage pkg
    | "upgrade", some pkg => v.upgradePackage pkg.name
    | "upgradeAll", _ => v.upgradeAll
    | "doctor", _ => v.runDoctor
    | "cleanup", _ => v.runCleanup
    | "autoremove", _ => v.runAutoremove
    | _, _ => ({ v with pendingAction := "" }, [])
  else
    ({ v with pendingAction := "" }, [])

/-- The bubbles textinput widget's value update (external collaborator,
modelled minimally): a single printable character is appended subject to the
CharLimit of 100, backspace deletes the last character, other keys leave the
buffer unchanged. -/
def textInputUpdate (value : String) (s : String) : String :=
  if s.length == 1 then
    (if value.length < 100 then value ++ s else value)
  else if s == "backspace" then value.dropRight 1
  else value

/-- The searchInput-focused branch of the tea.KeyMsg case: esc blurs, enter
submits a non-empty query, tab blurs and moves focus to the dependencies
panel, anything else is routed to the text input. -/
def DashboardView.handleKeyFocused (v : DashboardView) (s : String) :
    DashboardView × List Effect :=
  if s == "esc" then
    ({ v with searchInputFocused := false }, [])
  else if s == "enter" then
    let query := v.searchInputValue
    if query ≠ "" then v.performSearch query else (v, [])
  else if s == "tab" then
    ({ v with searchInputFocused := false, focusedPanel := PanelType.PanelDependencies }, [])
  else
    ({ v with searchInputValue := textInputUpdate v.searchInputValue s }, [])

/-- The up/k binding: move the focused panel's selection up one row, pulling
the scroll offset along; the dependencies panel scrolls freely. -/
def DashboardView.handleKeyUp (v : DashboardView) : DashboardView × List Effect :=
  match v.focusedPanel with
  | PanelType.PanelInstalled =>
    if v.installedIndex > 0 then
      let v := { v with installedIndex := v.installedIndex - 1 }
      let v := if v.installedIndex < v.installedScroll then
                 { v with installedScroll := v.installedIndex }
               else v
      (v.updateSelectedPackage).loadSelectedPackageInfo
    else (v, [])
  | PanelType.PanelSearch =>
    if v.searchIndex > 0 then
      let v := { v with searchIndex := v.searchIndex - 1 }
      let v := if v.searchIndex < v.searchScroll then
                 { v with searchScroll := v.searchIndex }
               else v
      (v.updateSelectedPackage).loadSelectedPackageInfo
    else (v, [])
  | PanelType.PanelDependencies =>
    if v.depScroll > 0 then ({ v with depScroll := v.depScroll - 1 }, [])
    else (v, [])

/-- The down/j binding: move the focused panel's selection down one row,
keeping it inside the visible window; the dependencies panel scrolls freely up
to its max scroll. -/
def DashboardView.handleKeyDown (v : DashboardView) : DashboardView × List Effect :=
  match v.focusedPanel with
  | PanelType.PanelInstalled =>
    let packages := v.state.GetFilteredPackages
    if v.installedIndex < (packages.length : Int) - 1 then
      let v := { v with installedIndex := v.installedIndex + 1 }
      let visibleLines := v.getInstalledVisibleLines
      let v := if v.installedIndex ≥ v.installedScroll + visibleLines then
                 { v with installedScroll := v.installedIndex - visibleLines + 1 }
               else v
      (v.updateSelectedPackage).loadSelectedPackageInfo
    else (v, [])
  | PanelType.PanelSearch =>
    if v.searchIndex < (v.searchResults.length : Int) - 1 then
      let v := { v with searchIndex := v.searchIndex + 1 }
      let visibleLines := v.getSearchVisibleLines
      let v := if v.searchIndex ≥ v.searchScroll + visibleLines then
                 { v with searchScroll := v.searchIndex - visibleLines + 1 }
               else v
      (v.updateSelectedPackage).loadSelectedPackageInfo
    else (v, [])
  | PanelType.PanelDependencies =>
    match v.packageInfo with
    | some info =>
      let maxScroll0 := (info.dependencies.length : Int) - v.getDependenciesVisibleLines
      let maxScroll := if maxScroll0 < 0 then 0 else maxScroll0
      if v.depScroll < maxScroll then ({ v with depScroll := v.depScroll + 1 }, [])
      else (v, [])
    | none => (v, [])

/-- The tab binding: blur the search input and cycle panel focus
Installed → Search → Dependencies → Installed (focusing Search also focuses
the text input). -/
def DashboardView.handleKeyTab (v : DashboardView) : DashboardView × List Effect :=
  let v := { v with searchInputFocused := false }
  match v.focusedPanel with
  | PanelType.PanelInstalled =>
    ({ v with focusedPanel := PanelType.PanelSearch, searchInputFocused := true }, [])
  | PanelType.PanelSearch =>
    ({ v with focusedPanel := PanelType.PanelDependencies }, [])
  | PanelType.PanelDependencies =>
    ({ v with focusedPanel := PanelType.PanelInstalled }, [])

/-- Set the pending action, blur the search input, and show the confirmation
dialog with the given prompt (the common request-phase sequence of every
mutating key binding). -/
def DashboardView.showConfirm (v : DashboardView) (action message : String) :
    DashboardView × List Effect :=
  ({ v with pendingAction := action
            searchInputFocused := false
            dialog := (v.dialog.SetMessage message).Show }, [])

/-- The fall-through at the bottom of Update: the focused installed-panel list
widget processes the key; if its cursor moved, the selected package is taken
from the widget item and an (undebounced) info load is issued.  The widget
itself is external bubbles code: its post-update cursor is the
environment-chosen value carried by the key message, clamped to the item
range. -/
def DashboardView.widgetFallthrough (v : DashboardView) (widgetCursor : Nat) :
    DashboardView × List Effect :=
  match v.focusedPanel with
  | PanelType.PanelInstalled =>
    let oldIdx := v.listIndex
    let newIdx := if v.installedItems.isEmpty then oldIdx
                  else min widgetCursor (v.installedItems.length - 1)
    let v := { v with listIndex := newIdx }
    if newIdx ≠ oldIdx ∧ v.installedItems.length > 0 then
      match v.installedItems[newIdx]? with
      | some pkg => DashboardView.loadPackageInfo { v with selectedPkg := some pkg } pkg
      | none => (v, [])
    else (v, [])
  | _ => (v, [])

/-- The enter binding: in the search panel with results and a blurred input,
an uninstalled selected package requests the install action; every other case
falls through to the list widget. -/
def DashboardView.handleKeyEnter (v : DashboardView) (widgetCursor : Nat) :
    DashboardView × List Effect :=
  if v.focusedPanel == PanelType.PanelSearch ∧ v.searchResults.length > 0
      ∧ !v.searchInputFocused then
    match v.selectedPkg with
    | some pkg =>
      if !pkg.installed then
        v.showConfirm "install" ("Install " ++ pkg.name ++ "?")
      else v.widgetFallthrough widgetCursor
    | none => v.widgetFallthrough widgetCursor
  else v.widgetFallthrough widgetCursor

/-- The u binding: request the single-package upgrade action when the
installed panel's selected package is outdated; otherwise fall through. -/
def DashboardView.handleKeyU (v : DashboardView) (widgetCursor : Nat) :
    DashboardView × List Effect :=
  match v.selectedPkg with
  | some pkg =>
    if v.focusedPanel == PanelType.PanelInstalled ∧ pkg.outdated then
      v.showConfirm "upgrade" ("Upgrade " ++ pkg.name ++ "?")
    else v.widgetFallthrough widgetCursor
  | none => v.widgetFallthrough widgetCursor

/-- The x binding: request the uninstall action for the installed panel's
selected package; otherwise fall through. -/
def DashboardView.handleKeyX (v : DashboardView) (widgetCursor : Nat) :
    DashboardView × List Effect :=
  match v.selectedPkg with
  | some pkg =>
    if v.focusedPanel == PanelType.PanelInstalled then
      v.showConfirm "uninstall" ("Uninstall " ++ pkg.name ++ "?")
    else v.widgetFallthrough widgetCursor
  | none => v.widgetFallthrough widgetCursor

/-- The U binding: in the installed panel, request the upgrade-all action when
there are outdated packages (no dialog otherwise); in other panels fall
through. -/
def DashboardView.handleKeyShiftU (v : DashboardView) (widgetCursor : Nat) :
    DashboardView × List Effect :=
  if v.focusedPanel == PanelType.PanelInstalled then
    let outdatedCount := v.state.GetOutdatedCount
    if outdatedCount > 0 then
      v.showConfirm "upgradeAll"
        ("Upgrade all " ++ toString outdatedCount ++ " outdated packages?")
    else (v, [])
  else v.widgetFallthrough widgetCursor

/-- The tea.KeyMsg case of DashboardView.Update: the focused search input
consumes keys first; otherwise the bound keys are tried in the source's order,
and unhandled keys (or bindings whose guard fails without returning) fall
through to the list widget. -/
def DashboardView.handleKey (v : DashboardView) (s : String) (widgetCursor : Nat) :
    DashboardView × List Effect :=
  if v.searchInputFocused then
    v.handleKeyFocused s
  else if keyIn s ["up", "k"] then v.handleKeyUp
  else if keyIn s ["down", "j"] then v.handleKeyDown
  else if keyIn s ["tab"] then v.handleKeyTab
  else if keyIn s ["enter"] then v.handleKeyEnter widgetCursor
  else if keyIn s ["u"] then v.handleKeyU widgetCursor
  else if keyIn s ["x"] then v.handleKeyX widgetCursor
  else if keyIn s ["U"] then v.handleKeyShiftU widgetCursor
  else if keyIn s ["r"] then v.refresh
  else if keyIn s ["d"] then
    v.showConfirm "doctor" "Run brew doctor to check for problems?"
  else if keyIn s ["c"] then
    v.showConfirm "cleanup" "Run brew cleanup to remove old versions?"
  else if keyIn s ["a"] then
    v.showConfirm "autoremove" "Run brew autoremove to uninstall unused dependencies?"
  else v.widgetFallthrough widgetCursor

/-- The views.SearchResultsMsg case: install the results, reset search
selection and scroll, blur the input, and load detail for the first result. -/
def DashboardView.handleSearchResults (v : DashboardView) (results : List Package) :
    DashboardView × List Effect :=
  let v := { v with searchResults := results, searching := false, searchIndex := 0
                    searchScroll := 0, searchInputFocused := false }
  match results with
  | pkg :: _ => DashboardView.loadPackageInfo { v with selectedPkg := some pkg } pkg
  | [] => (v, [])

/-- The views.PackagesLoadedMsg case: refill the widget items from shared
state, return to Idle, reset installed selection and scroll, log the count,
and load detail for the first package. -/
def DashboardView.handlePackagesLoaded (v : DashboardView) : DashboardView × List Effect :=
  let v := v.updateInstalledList
  let v := { v with operationInProgress := false, operationMessage := ""
                    installedIndex := 0, installedScroll := 0 }
  let packages := v.state.GetFilteredPackages
  let v := v.addLog ("✓ Loaded " ++ toString packages.length ++ " packages")
  match packages with
  | pkg :: _ => DashboardView.loadPackageInfo { v with selectedPkg := some pkg } pkg
  | [] => (v, [])

/-- The views.OutdatedLoadedMsg case: refill the widget items, return to Idle
and log how many filtered packages are outdated. -/
def DashboardView.handleOutdatedLoaded (v : DashboardView) : DashboardView × List Effect :=
  let v := v.updateInstalledList
  let v := { v with operationInProgress := false, operationMessage := "" }
  let outdatedCount : Nat :=
    (v.state.GetFilteredPackages.filter (fun pkg => pkg.outdated)).length
  let v := if outdatedCount > 0 then
             v.addLog ("⚠ Found " ++ toString outdatedCount ++ " outdated packages")
           else
             v.addLog "✓ All packages are up to date"
  (v, [])

/-- The views.DoctorOutputMsg case: append each non-blank report line to the
log, then a completion line. -/
def DashboardView.handleDoctorOutput (v : DashboardView) (lines : List String) :
    DashboardView × List Effect :=
  let v := { v with operationInProgress := false, operationMessage := "" }
  let v := lines.foldl
    (fun vv line => if line.trim ≠ "" then vv.addLog line else vv) v
  (v.addLog "✓ Doctor completed", [])

/-- DashboardView.Update: the session controller's step function.  A visible
dialog consumes every message first and nothing passes through; otherwise the
message is dispatched exactly as the Go type switch does. -/
def DashboardView.Update (v : DashboardView) (msg : Msg) : DashboardView × List Effect :=
  if v.dialog.visible then
    ({ v with dialog := (v.dialog.Update msg).1 }, (v.dialog.Update msg).2)
  else
    match msg with
    | Msg.dialogMsg confirmed => v.handleDialogMsg confirmed
    | Msg.spinnerTick => (v, [Effect.SpinnerTickEff])
    | Msg.key s widgetCursor => v.handleKey s widgetCursor
    | Msg.debouncedLoad pkg i =>
      if i == v.debounceID then
        match pkg with
        | some p => v.loadPackageInfo p
        | none => (v, [])
      else (v, [])
    | Msg.packageInfoLoaded info =>
      ({ v with packageInfo := info, loadingInfo := false, depScroll := 0 }, [])
    | Msg.searchResultsMsg results => v.handleSearchResults results
    | Msg.packagesLoaded => v.handlePackagesLoaded
    | Msg.outdatedLoaded => v.handleOutdatedLoaded
    | Msg.successView m =>
      let v := { v with operationInProgress := false, operationMessage := "" }
      let v := v.addLog ("✓ " ++ m)
      ({ v with state := v.state.SetSuccess m }, [Effect.RefreshPackagesEff])
    | Msg.errorView err =>
      let v := { v with loadingInfo := false, searching := false
                        operationInProgress := false, operationMessage := "" }
      let v := v.addLog ("Error: " ++ err)
      ({ v with state := v.state.SetError (some err) }, [])
    | Msg.doctorOutput lines => v.handleDoctorOutput lines

/-- NewDashboardView: zero value of the controller (before SetSize/Init). -/
def NewDashboardView (state : State) : DashboardView :=
  { state := state, installedItems := [], listIndex := 0
    searchInputFocused := false, searchInputValue := "", searchResults := []
    focusedPanel := PanelType.PanelInstalled, selectedPkg := none
    packageInfo := none, loadingInfo := false, searching := false
    installedIndex := 0, searchIndex := 0, depIndex := 0
    installedScroll := 0, searchScroll := 0, depScroll := 0
    pendingPackage := none, debounceID := 0
    operationInProgress := false, operationMessage := ""
    dialog := Dialog.NewConfirmDialog "Confirm" ""
    pendingAction := "", logs := [], logsScroll := 0, width := 0, height := 0 }

/-- DashboardView.SetSize. -/
def DashboardView.SetSize (v : DashboardView) (width height : Int) : DashboardView :=
  { v with width := width, height := height }

/-- DashboardView.Init: show the loading state, select the first filtered
package and load its detail, and start the spinner. -/
def DashboardView.Init (v : DashboardView) : DashboardView × List Effect :=
  let v := { v with operationInProgress := true, operationMessage := "Loading packages..." }
  let v := v.addLog "→ Loading installed packages..."
  let v := v.updateInstalledList
  let v := { v with installedIndex := 0 }
  match v.state.GetFilteredPackages with
  | pkg :: _ =>
    ((DashboardView.loadPackageInfo { v with selectedPkg := some pkg } pkg).1,
     (DashboardView.loadPackageInfo { v with selectedPkg := some pkg } pkg).2
       ++ [Effect.SpinnerTickEff])
  | [] => (v, [Effect.SpinnerTickEff])

/-- Controller-level events: either a message delivered straight to
DashboardView.Update, or one of the two app.go completion handlers that first
replace the shared store (state.SetInstalled / state.SetOutdated) and then
forward the corresponding view message to the dashboard (app.Update's
PackagesLoadedMsg and OutdatedLoadedMsg cases). -/
inductive Event
  | view (msg : Msg)
  | storeInstalled (packages : List Package)
  | storeOutdated (packages : List OutdatedPackage)
deriving Repr, DecidableEq

/-- One controller step for an Event. -/
def controllerStep (v : DashboardView) (ev : Event) : DashboardView × List Effect :=
  match ev with
  | Event.view msg => v.Update msg
  | Event.storeInstalled packages =>
    DashboardView.Update { v with state := v.state.SetInstalled packages } Msg.packagesLoaded
  | Event.storeOutdated packages =>
    DashboardView.Update { v with state := v.state.SetOutdated packages } Msg.outdatedLoaded

/-- Fold a list of events through the controller, keeping only the state. -/
def runEvents (v : DashboardView) (evs : List Event) : DashboardView :=
  evs.foldl (fun vv ev => (controllerStep vv ev).1) v

/-- app.Model (internal/app/app.go), restricted to what the claims touch: the
dashboard is the home view.  The app-level confirmation dialog is never shown
(no call site invokes Show on it) and the not-ready gate only intercepts
spinner ticks, so both are omitted.  `currentIsDash` records whether the
dashboard is the current view (messages forwarded to other views do not reach
it). -/
structure AppModel where
  dash : DashboardView
  viewStack : List Nat
  currentIsDash : Bool
deriving Repr, DecidableEq

/-- Messages consumed by app.Model.Update: key presses, the app's own
navigation/error/success messages, the two list-load completions, the
refresh request, and any view-level message it merely forwards. -/
inductive AppMsg
  | key (s : String) (widgetCursor : Nat)
  | viewMsg (msg : Msg)
  | errorApp (err : String)
  | successApp (msg : String)
  | packagesLoadedApp (packages : List Package)
  | outdatedLoadedApp (packages : List OutdatedPackage)
  | refreshApp
deriving Repr, DecidableEq

/-- Forward a message to the current view (only the dashboard is modelled). -/
def AppModel.forward (a : AppModel) (msg : Msg) : AppModel × List Effect :=
  if a.currentIsDash then
    ({ a with dash := (a.dash.Update msg).1 }, (a.dash.Update msg).2)
  else (a, [])

/-- app.Model.Update: the global key bindings run before the current view sees
any key — ctrl+c and q save favorites and quit, esc with a non-empty view
stack goes back, ? is swallowed, and the digits 1-6 navigate to other views;
every other message (and every unclaimed key) is forwarded to the current
view. -/
def AppModel.Update (a : AppModel) (msg : AppMsg) : AppModel × List Effect :=
  match msg with
  | AppMsg.key s widgetCursor =>
    if s == "ctrl+c" ∨ s == "q" then
      (a, [Effect.SaveFavoritesEff a.dash.state.favorites, Effect.QuitEff])
    else if s == "esc" then
      if a.viewStack.length > 0 then (a, [Effect.EmitBackEff])
      else a.forward (Msg.key s widgetCursor)
    else if s == "?" then (a, [])
    else if keyIn s ["1", "2", "3", "4", "5", "6"] then (a, [Effect.NavigateEff s])
    else a.forward (Msg.key s widgetCursor)
  | AppMsg.viewMsg m => a.forward m
  | AppMsg.errorApp err =>
    ({ a with dash := { a.dash with state := a.dash.state.SetError (some err) } }, [])
  | AppMsg.successApp m =>
    ({ a with dash := { a.dash with state := a.dash.state.SetSuccess m } }, [])
  | AppMsg.packagesLoadedApp packages =>
    let a := { a with dash := { a.dash with state := a.dash.state.SetInstalled packages } }
    a.forward Msg.packagesLoaded
  | AppMsg.outdatedLoadedApp packages =>
    let a := { a with dash := { a.dash with state := a.dash.state.SetOutdated packages } }
    a.forward Msg.outdatedLoaded
  | AppMsg.refreshApp => (a, [Effect.ListInstalledReq, Effect.OutdatedReq])

/-- loadInstalledPackages (app.go): the message its command delivers, given
the client result — an error becomes the app-level ErrorMsg. -/
def loadInstalledPackagesMsg (result : Except String (List Package)) : AppMsg :=
  match result with
  | Except.error e => AppMsg.errorApp e
  | Except.ok packages => AppMsg.packagesLoadedApp packages

/-- loadOutdatedPackages (app.go): a failed outdated listing is converted into
a successful load of the empty list rather than an error. -/
def loadOutdatedPackagesMsg (result : Except String (List OutdatedPackage)) : AppMsg :=
  match result with
  | Except.error _ => AppMsg.outdatedLoadedApp []
  | Except.ok packages => AppMsg.outdatedLoadedApp packages

/-! Concrete sample data used by witnesses and counterexamples. -/

/-- Sample installed, up-to-date formula. -/
def pkgA : Package :=
  { name := "jq", fullName := "jq", version := "1.7", description := "JSON processor"
    homepage := "", ptype := PackageType.Formula, installed := true
    outdated := false, pinned := false }

/-- Sample installed, outdated formula. -/
def pkgB : Package :=
  { name := "wget", fullName := "wget", version := "1.20", description := ""
    homepage := "", ptype := PackageType.Formula, installed := true
    outdated := true, pinned := false }

/-- Sample detail record for pkgA. -/
def infoA : PackageInfo :=
  { pkg := pkgA, dependencies := ["oniguruma"], buildDeps := [], caveats := "" }

/-- Sample detail record for pkgB. -/
def infoB : PackageInfo :=
  { pkg := pkgB, dependencies := [], buildDeps := [], caveats := "" }

/-- Shared state holding the two sample packages. -/
def st2 : State :=
  { State.NewState with installedPackages := [pkgA, pkgB]
                        totalInstalled := 2, totalOutdated := 1 }

/-- Controller after NewDashboardView, SetSize 80x24 and Init on `st2`. -/
def v80 : DashboardView := (((NewDashboardView st2).SetSize 80 24).Init).1

/-! Mutation-freedom lemmas: which controller steps can emit a mutating
external call. -/


/-- A mutation-free effect list cannot contain an effect with a mutating
action tag. -/
theorem MutFree.not_some {effs : List Effect} (h : MutFree effs) {e : Effect} {a : String}
    (hmem : e ∈ effs) (hmut : mutAction e = some a) : False := by
  have h0 := h e hmem
  rw [h0] at hmut
  exact Option.noConfusion hmut

/-- The dialog's own Update never performs an external mutating call. -/
theorem mutFree_dialogUpdate (d : Dialog) (m : Msg) : MutFree (d.Update m).2 := by
  intro e he
  unfold Dialog.Update at he
  repeat' split at he
  all_goals simp_all [mutAction]

theorem mutFree_loadPackageInfo (v : DashboardView) (p : Package) :
    MutFree (v.loadPackageInfo p).2 := by
  intro e he
  unfold DashboardView.loadPackageInfo at he
  simp_all [mutAction]

theorem mutFree_loadSelected (v : DashboardView) : MutFree v.loadSelectedPackageInfo.2 := by
  intro e he
  unfold DashboardView.loadSelectedPackageInfo DashboardView.debouncedLoadPackageInfo at he
  try simp only [] at he
  repeat' split at he
  all_goals simp_all [mutAction]

theorem mutFree_handleKeyUp (v : DashboardView) : MutFree v.handleKeyUp.2 := by
  intro e he
  unfold DashboardView.handleKeyUp at he
  try simp only [] at he
  repeat' split at he
  all_goals first
    | exact mutFree_loadSelected _ e he
    | simp_all [mutAction]

theorem mutFree_handleKeyDown (v : DashboardView) : MutFree v.handleKeyDown.2 := by
  intro e he
  unfold DashboardView.handleKeyDown at he
  try simp only [] at he
  repeat' split at he
  all_goals first
    | exact mutFree_loadSelected _ e he
    | simp_all [mutAction]

theorem mutFree_handleKeyFocused (v : DashboardView) (s : String) :
    MutFree (v.handleKeyFocused s).2 := by
  intro e he
  unfold DashboardView.handleKeyFocused DashboardView.performSearch at he
  try simp only [] at he
  repeat' split at he
  all_goals simp_all [mutAction]

theorem mutFree_handleKeyTab (v : DashboardView) : MutFree v.handleKeyTab.2 := by
  intro e he
  unfold DashboardView.handleKeyTab at he
  try simp only [] at he
  repeat' split at he
  all_goals simp_all [mutAction]

theorem mutFree_showConfirm (v : DashboardView) (a m : String) :
    MutFree (v.showConfirm a m).2 := by
  intro e he
  unfold DashboardView.showConfirm at he
  simp_all [mutAction]

theorem mutFree_widgetFallthrough (v : DashboardView) (w : Nat) :
    MutFree (v.widgetFallthrough w).2 := by
  intro e he
  unfold DashboardView.widgetFallthrough at he
  try simp only [] at he
  repeat' split at he
  all_goals first
    | exact mutFree_loadPackageInfo _ _ e he
    | simp_all [mutAction]

/-- No key binding performs an external mutating call directly: the mutating
bindings only open the confirmation dialog. -/
theorem mutFree_handleKeyEnter (v : DashboardView) (w : Nat) :
    MutFree (v.handleKeyEnter w).2 := by
  intro e he
  unfold DashboardView.handleKeyEnter at he
  repeat' split at he
  all_goals first
    | exact mutFree_showConfirm _ _ _ e he
    | exact mutFree_widgetFallthrough _ _ e he

theorem mutFree_handleKeyU (v : DashboardView) (w : Nat) :
    MutFree (v.handleKeyU w).2 := by
  intro e he
  unfold DashboardView.handleKeyU at he
  repeat' split at he
  all_goals first
    | exact mutFree_showConfirm _ _ _ e he
    | exact mutFree_widgetFallthrough _ _ e he

theorem mutFree_handleKeyX (v : DashboardView) (w : Nat) :
    MutFree (v.handleKeyX w).2 := by
  intro e he
  unfold DashboardView.handleKeyX at he
  repeat' split at he
  all_goals first
    | exact mutFree_showConfirm _ _ _ e he
    | exact mutFree_widgetFallthrough _ _ e he

theorem mutFree_handleKeyShiftU (v : DashboardView) (w : Nat) :
    MutFree (v.handleKeyShiftU w).2 := by
  intro e he
  unfold DashboardView.handleKeyShiftU at he
  try simp only [] at he
  repeat' split at he
  all_goals first
    | exact mutFree_showConfirm _ _ _ e he
    | exact mutFree_widgetFallthrough _ _ e he
    | simp_all [mutAction]

theorem mutFree_refresh (v : DashboardView) : MutFree v.refresh.2 := by
  intro e he
  unfold DashboardView.refresh at he
  simp_all [mutAction]

theorem mutFree_handleKey (v : DashboardView) (s : String) (w : Nat) :
    MutFree (v.handleKey s w).2 := by
  intro e he
  unfold DashboardView.handleKey at he
  by_cases h1 : v.searchInputFocused = true
  · rw [if_pos h1] at he; exact mutFree_handleKeyFocused _ _ e he
  rw [if_neg h1] at he
  by_cases h2 : keyIn s ["up", "k"] = true
  · rw [if_pos h2] at he; exact mutFree_handleKeyUp _ e he
  rw [if_neg h2] at he
  by_cases h3 : keyIn s ["down", "j"] = true
  · rw [if_pos h3] at he; exact mutFree_handleKeyDown _ e he
  rw [if_neg h3] at he
  by_cases h4 : keyIn s ["tab"] = true
  · rw [if_pos h4] at he; exact mutFree_handleKeyTab _ e he
  rw [if_neg h4] at he
  by_cases h5 : keyIn s ["enter"] = true
  · rw [if_pos h5] at he; exact mutFree_handleKeyEnter _ _ e he
  rw [if_neg h5] at he
  by_cases h6 : keyIn s ["u"] = true
  · rw [if_pos h6] at he; exact mutFree_handleKeyU _ _ e he
  rw [if_neg h6] at he
  by_cases h7 : keyIn s ["x"] = true
  · rw [if_pos h7] at he; exact mutFree_handleKeyX _ _ e he
  rw [if_neg h7] at he
  by_cases h8 : keyIn s ["U"] = true
  · rw [if_pos h8] at he; exact mutFree_handleKeyShiftU _ _ e he
  rw [if_neg h8] at he
  by_cases h9 : keyIn s ["r"] = true
  · rw [if_pos h9] at he; exact mutFree_refresh _ e he
  rw [if_neg h9] at he
  by_cases h10 : keyIn s ["d"] = true
  · rw [if_pos h10] at he; exact mutFree_showConfirm _ _ _ e he
  rw [if_neg h10] at he
  by_cases h11 : keyIn s ["c"] = true
  · rw [if_pos h11] at he; exact mutFree_showConfirm _ _ _ e he
  rw [if_neg h11] at he
  by_cases h12 : keyIn s ["a"] = true
  · rw [if_pos h12] at he; exact mutFree_showConfirm _ _ _ e he
  rw [if_neg h12] at he
  exact mutFree_widgetFallthrough _ _ e he

theorem mutFree_handleSearchResults (v : DashboardView) (rs : List Package) :
    MutFree (v.handleSearchResults rs).2 := by
  intro e he
  unfold DashboardView.handleSearchResults at he
  try simp only [] at he
  repeat' split at he
  all_goals first
    | exact mutFree_loadPackageInfo _ _ e he
    | simp_all [mutAction]

theorem mutFree_handlePackagesLoaded (v : DashboardView) :
    MutFree v.handlePackagesLoaded.2 := by
  intro e he
  unfold DashboardView.handlePackagesLoaded at he
  try simp only [] at he
  repeat' split at he
  all_goals first
    | exact mutFree_loadPackageInfo _ _ e he
    | simp_all [mutAction]

theorem mutFree_handleOutdatedLoaded (v : DashboardView) :
    MutFree v.handleOutdatedLoaded.2 := by
  intro e he
  unfold DashboardView.handleOutdatedLoaded at he
  simp_all [mutAction]

theorem mutFree_handleDoctorOutput (v : DashboardView) (lines : List String) :
    MutFree (v.handleDoctorOutput lines).2 := by
  intro e he
  unfold DashboardView.handleDoctorOutput at he
  simp_all [mutAction]


/-! Invariance lemmas: which fields each handler leaves untouched. -/

/-- addLog changes only the log buffer. -/
theorem dlgPA_addLog (v : DashboardView) (m : String) :
    (v.addLog m).dialog = v.dialog ∧ (v.addLog m).pendingAction = v.pendingAction :=
  ⟨rfl, rfl⟩

theorem dlgPA_loadPackageInfo (v : DashboardView) (p : Package) :
    (v.loadPackageInfo p).1.dialog = v.dialog ∧
    (v.loadPackageInfo p).1.pendingAction = v.pendingAction := by
  unfold DashboardView.loadPackageInfo
  exact ⟨rfl, rfl⟩

theorem dlgPA_loadSelected (v : DashboardView) :
    v.loadSelectedPackageInfo.1.dialog = v.dialog ∧
    v.loadSelectedPackageInfo.1.pendingAction = v.pendingAction := by
  unfold DashboardView.loadSelectedPackageInfo DashboardView.debouncedLoadPackageInfo
  try simp only []
  repeat' split
  all_goals exact ⟨rfl, rfl⟩

theorem dlgPA_updateSelected (v : DashboardView) :
    v.updateSelectedPackage.dialog = v.dialog ∧
    v.updateSelectedPackage.pendingAction = v.pendingAction := by
  unfold DashboardView.updateSelectedPackage
  try simp only []
  repeat' split
  all_goals exact ⟨rfl, rfl⟩

theorem dlgPA_handleKeyUp (v : DashboardView) :
    v.handleKeyUp.1.dialog = v.dialog ∧ v.handleKeyUp.1.pendingAction = v.pendingAction := by
  unfold DashboardView.handleKeyUp
  try simp only []
  repeat' split
  all_goals first
    | exact ⟨rfl, rfl⟩
    | (constructor
       · rw [(dlgPA_loadSelected _).1, (dlgPA_updateSelected _).1]
       · rw [(dlgPA_loadSelected _).2, (dlgPA_updateSelected _).2])

theorem dlgPA_handleKeyDown (v : DashboardView) :
    v.handleKeyDown.1.dialog = v.dialog ∧ v.handleKeyDown.1.pendingAction = v.pendingAction := by
  unfold DashboardView.handleKeyDown
  try simp only []
  repeat' split
  all_goals first
    | exact ⟨rfl, rfl⟩
    | (constructor
       · rw [(dlgPA_loadSelected _).1, (dlgPA_updateSelected _).1]
       · rw [(dlgPA_loadSelected _).2, (dlgPA_updateSelected _).2])

theorem dlgPA_handleKeyFocused (v : DashboardView) (s : String) :
    (v.handleKeyFocused s).1.dialog = v.dialog ∧
    (v.handleKeyFocused s).1.pendingAction = v.pendingAction := by
  unfold DashboardView.handleKeyFocused DashboardView.performSearch
  try simp only []
  repeat' split
  all_goals exact ⟨rfl, rfl⟩

theorem dlgPA_handleKeyTab (v : DashboardView) :
    v.handleKeyTab.1.dialog = v.dialog ∧ v.handleKeyTab.1.pendingAction = v.pendingAction := by
  unfold DashboardView.handleKeyTab
  try simp only []
  repeat' split
  all_goals exact ⟨rfl, rfl⟩

theorem dlgPA_widgetFallthrough (v : DashboardView) (w : Nat) :
    (v.widgetFallthrough w).1.dialog = v.dialog ∧
    (v.widgetFallthrough w).1.pendingAction = v.pendingAction := by
  unfold DashboardView.widgetFallthrough DashboardView.loadPackageInfo
  try simp only []
  repeat' split
  all_goals exact ⟨rfl, rfl⟩

theorem dlgPA_refresh (v : DashboardView) :
    v.refresh.1.dialog = v.dialog ∧ v.refresh.1.pendingAction = v.pendingAction := by
  unfold DashboardView.refresh
  exact ⟨rfl, rfl⟩

/-- The dialog-resolution handler never changes the dialog value itself (the
dialog already hid itself before emitting the resolution). -/
theorem dlg_handleDialogMsg (v : DashboardView) (c : Bool) :
    (v.handleDialogMsg c).1.dialog = v.dialog := by
  unfold DashboardView.handleDialogMsg DashboardView.installPackage
    DashboardView.uninstallPackage DashboardView.upgradePackage DashboardView.upgradeAll
    DashboardView.runDoctor DashboardView.runCleanup DashboardView.runAutoremove
    DashboardView.addLog
  try simp only []
  repeat' split
  all_goals rfl

theorem dlgPA_handleSearchResults (v : DashboardView) (rs : List Package) :
    (v.handleSearchResults rs).1.dialog = v.dialog ∧
    (v.handleSearchResults rs).1.pendingAction = v.pendingAction := by
  unfold DashboardView.handleSearchResults DashboardView.loadPackageInfo
  try simp only []
  repeat' split
  all_goals exact ⟨rfl, rfl⟩

theorem dlgPA_handlePackagesLoaded (v : DashboardView) :
    v.handlePackagesLoaded.1.dialog = v.dialog ∧
    v.handlePackagesLoaded.1.pendingAction = v.pendingAction := by
  unfold DashboardView.handlePackagesLoaded DashboardView.loadPackageInfo
    DashboardView.updateInstalledList DashboardView.addLog
  try simp only []
  repeat' split
  all_goals exact ⟨rfl, rfl⟩

theorem dlgPA_handleOutdatedLoaded (v : DashboardView) :
    v.handleOutdatedLoaded.1.dialog = v.dialog ∧
    v.handleOutdatedLoaded.1.pendingAction = v.pendingAction := by
  unfold DashboardView.handleOutdatedLoaded DashboardView.updateInstalledList
    DashboardView.addLog
  try simp only []
  repeat' split
  all_goals exact ⟨rfl, rfl⟩

theorem dlgPA_logFold (lines : List String) (v : DashboardView) :
    (lines.foldl (fun vv line => if line.trim ≠ "" then vv.addLog line else vv) v).dialog
        = v.dialog ∧
    (lines.foldl (fun vv line => if line.trim ≠ "" then vv.addLog line else vv)
        v).pendingAction = v.pendingAction := by
  induction lines generalizing v with
  | nil => exact ⟨rfl, rfl⟩
  | cons l ls ih =>
    simp only [List.foldl_cons]
    constructor
    · rw [(ih _).1]
      split
      · exact (dlgPA_addLog _ _).1
      · rfl
    · rw [(ih _).2]
      split
      · exact (dlgPA_addLog _ _).2
      · rfl

theorem dlgPA_handleDoctorOutput (v : DashboardView) (lines : List String) :
    (v.handleDoctorOutput lines).1.dialog = v.dialog ∧
    (v.handleDoctorOutput lines).1.pendingAction = v.pendingAction := by
  unfold DashboardView.handleDoctorOutput
  try simp only []
  constructor
  · rw [(dlgPA_addLog _ _).1, (dlgPA_logFold _ _).1]
  · rw [(dlgPA_addLog _ _).2, (dlgPA_logFold _ _).2]

/-- The action tags the request phase can set. -/
def confirmableActions : List String :=
  ["install", "uninstall", "upgrade", "upgradeAll", "doctor", "cleanup", "autoremove"]

theorem show_handleKeyEnter (v : DashboardView) (w : Nat) :
    v.handleKeyEnter w = v.widgetFallthrough w ∨
    (v.handleKeyEnter w).1.pendingAction ∈ confirmableActions := by
  unfold DashboardView.handleKeyEnter
  repeat' split
  all_goals first
    | exact Or.inl rfl
    | (right; simp [DashboardView.showConfirm, confirmableActions])

theorem show_handleKeyU (v : DashboardView) (w : Nat) :
    v.handleKeyU w = v.widgetFallthrough w ∨
    (v.handleKeyU w).1.pendingAction ∈ confirmableActions := by
  unfold DashboardView.handleKeyU
  repeat' split
  all_goals first
    | exact Or.inl rfl
    | (right; simp [DashboardView.showConfirm, confirmableActions])

theorem show_handleKeyX (v : DashboardView) (w : Nat) :
    v.handleKeyX w = v.widgetFallthrough w ∨
    (v.handleKeyX w).1.pendingAction ∈ confirmableActions := by
  unfold DashboardView.handleKeyX
  repeat' split
  all_goals first
    | exact Or.inl rfl
    | (right; simp [DashboardView.showConfirm, confirmableActions])

theorem show_handleKeyShiftU (v : DashboardView) (w : Nat) :
    v.handleKeyShiftU w = v.widgetFallthrough w ∨
    v.handleKeyShiftU w = (v, []) ∨
    (v.handleKeyShiftU w).1.pendingAction ∈ confirmableActions := by
  unfold DashboardView.handleKeyShiftU
  try simp only []
  repeat' split
  all_goals first
    | exact Or.inl rfl
    | exact Or.inr (Or.inl rfl)
    | (right; right; simp [DashboardView.showConfirm, confirmableActions])

/-- Whenever a controller step turns the dialog from hidden to visible, the
newly set pending action is one of the seven confirmable tags: every dialog
display goes through the request phase, which sets `pendingAction` afresh. -/
theorem updateShowsDialog (v : DashboardView) (msg : Msg)
    (hvis : v.dialog.visible = false)
    (hshow : (v.Update msg).1.dialog.visible = true) :
    (v.Update msg).1.pendingAction ∈ confirmableActions := by
  unfold DashboardView.Update at hshow ⊢
  rw [if_neg (by simp [hvis])] at hshow ⊢
  cases msg with
  | dialogMsg c =>
    rw [dlg_handleDialogMsg] at hshow
    rw [hvis] at hshow
    cases hshow
  | spinnerTick => rw [hvis] at hshow; cases hshow
  | key s w =>
    simp only at hshow ⊢
    unfold DashboardView.handleKey at hshow ⊢
    by_cases h1 : v.searchInputFocused = true
    · rw [if_pos h1] at hshow ⊢
      rw [(dlgPA_handleKeyFocused _ _).1] at hshow
      rw [hvis] at hshow; cases hshow
    rw [if_neg h1] at hshow ⊢
    by_cases h2 : keyIn s ["up", "k"] = true
    · rw [if_pos h2] at hshow ⊢
      rw [(dlgPA_handleKeyUp _).1] at hshow
      rw [hvis] at hshow; cases hshow
    rw [if_neg h2] at hshow ⊢
    by_cases h3 : keyIn s ["down", "j"] = true
    · rw [if_pos h3] at hshow ⊢
      rw [(dlgPA_handleKeyDown _).1] at hshow
      rw [hvis] at hshow; cases hshow
    rw [if_neg h3] at hshow ⊢
    by_cases h4 : keyIn s ["tab"] = true
    · rw [if_pos h4] at hshow ⊢
      rw [(dlgPA_handleKeyTab _).1] at hshow
      rw [hvis] at hshow; cases hshow
    rw [if_neg h4] at hshow ⊢
    by_cases h5 : keyIn s ["enter"] = true
    · rw [if_pos h5] at hshow ⊢
      rcases show_handleKeyEnter v w with h | h
      · rw [h, (dlgPA_widgetFallthrough _ _).1, hvis] at hshow; cases hshow
      · exact h
    rw [if_neg h5] at hshow ⊢
    by_cases h6 : keyIn s ["u"] = true
    · rw [if_pos h6] at hshow ⊢
      rcases show_handleKeyU v w with h | h
      · rw [h, (dlgPA_widgetFallthrough _ _).1, hvis] at hshow; cases hshow
      · exact h
    rw [if_neg h6] at hshow ⊢
    by_cases h7 : keyIn s ["x"] = true
    · rw [if_pos h7] at hshow ⊢
      rcases show_handleKeyX v w with h | h
      · rw [h, (dlgPA_widgetFallthrough _ _).1, hvis] at hshow; cases hshow
      · exact h
    rw [if_neg h7] at hshow ⊢
    by_cases h8 : keyIn s ["U"] = true
    · rw [if_pos h8] at hshow ⊢
      rcases show_handleKeyShiftU v w with h | h | h
      · rw [h, (dlgPA_widgetFallthrough _ _).1, hvis] at hshow; cases hshow
      · rw [h] at hshow; rw [hvis] at hshow; cases hshow
      · exact h
    rw [if_neg h8] at hshow ⊢
    by_cases h9 : keyIn s ["r"] = true
    · rw [if_pos h9] at hshow ⊢
      rw [(dlgPA_refresh _).1] at hshow
      rw [hvis] at hshow; cases hshow
    rw [if_neg h9] at hshow ⊢
    by_cases h10 : keyIn s ["d"] = true
    · rw [if_pos h10] at hshow ⊢
      simp [DashboardView.showConfirm, confirmableActions]
    rw [if_neg h10] at hshow ⊢
    by_cases h11 : keyIn s ["c"] = true
    · rw [if_pos h11] at hshow ⊢
      simp [DashboardView.showConfirm, confirmableActions]
    rw [if_neg h11] at hshow ⊢
    by_cases h12 : keyIn s ["a"] = true
    · rw [if_pos h12] at hshow ⊢
      simp [DashboardView.showConfirm, confirmableActions]
    rw [if_neg h12] at hshow ⊢
    rw [(dlgPA_widgetFallthrough _ _).1] at hshow
    rw [hvis] at hshow; cases hshow
  | debouncedLoad p i =>
    simp only at hshow
    split at hshow
    · split at hshow
      · rw [(dlgPA_loadPackageInfo _ _).1] at hshow
        rw [hvis] at hshow; cases hshow
      · rw [hvis] at hshow; cases hshow
    · rw [hvis] at hshow; cases hshow
  | packageInfoLoaded info => rw [hvis] at hshow; cases hshow
  | searchResultsMsg rs =>
    rw [(dlgPA_handleSearchResults _ _).1] at hshow
    rw [hvis] at hshow; cases hshow
  | packagesLoaded =>
    rw [(dlgPA_handlePackagesLoaded _).1] at hshow
    rw [hvis] at hshow; cases hshow
  | outdatedLoaded =>
    rw [(dlgPA_handleOutdatedLoaded _).1] at hshow
    rw [hvis] at hshow; cases hshow
  | successView m =>
    simp only at hshow
    rw [(dlgPA_addLog _ _).1] at hshow
    rw [hvis] at hshow; cases hshow
  | errorView err =>
    simp only at hshow
    rw [(dlgPA_addLog _ _).1] at hshow
    rw [hvis] at hshow; cases hshow
  | doctorOutput lines =>
    rw [(dlgPA_handleDoctorOutput _ _).1] at hshow
    rw [hvis] at hshow; cases hshow

/-! Field and effect characterizations of the seven dispatch helpers. -/

theorem pa_installPackage (v : DashboardView) (p : Package) :
    (v.installPackage p).1.pendingAction = v.pendingAction := by
  unfold DashboardView.installPackage
  try simp only []
  rw [(dlgPA_addLog _ _).2]

theorem eff_installPackage (v : DashboardView) (p : Package) :
    (v.installPackage p).2 = [Effect.InstallReq p.name (p.ptype == PackageType.Cask)] := rfl

theorem pa_uninstallPackage (v : DashboardView) (p : Package) :
    (v.uninstallPackage p).1.pendingAction = v.pendingAction := by
  unfold DashboardView.uninstallPackage
  try simp only []
  rw [(dlgPA_addLog _ _).2]

theorem eff_uninstallPackage (v : DashboardView) (p : Package) :
    (v.uninstallPackage p).2 = [Effect.UninstallReq p.name (p.ptype == PackageType.Cask)] := rfl

theorem pa_upgradePackage (v : DashboardView) (name : String) :
    (v.upgradePackage name).1.pendingAction = v.pendingAction := by
  unfold DashboardView.upgradePackage
  try simp only []
  rw [(dlgPA_addLog _ _).2]

theorem eff_upgradePackage (v : DashboardView) (name : String) :
    (v.upgradePackage name).2 = [Effect.UpgradeReq [name]] := rfl

theorem pa_upgradeAll (v : DashboardView) :
    v.upgradeAll.1.pendingAction = v.pendingAction := by
  unfold DashboardView.upgradeAll
  try simp only []
  rw [(dlgPA_addLog _ _).2]

theorem eff_upgradeAll (v : DashboardView) : v.upgradeAll.2 = [Effect.UpgradeReq []] := rfl

theorem pa_runDoctor (v : DashboardView) :
    v.runDoctor.1.pendingAction = v.pendingAction := by
  unfold DashboardView.runDoctor
  try simp only []
  rw [(dlgPA_addLog _ _).2]

theorem eff_runDoctor (v : DashboardView) : v.runDoctor.2 = [Effect.DoctorReq] := rfl

theorem pa_runCleanup (v : DashboardView) :
    v.runCleanup.1.pendingAction = v.pendingAction := by
  unfold DashboardView.runCleanup
  try simp only []
  rw [(dlgPA_addLog _ _).2]

theorem eff_runCleanup (v : DashboardView) : v.runCleanup.2 = [Effect.CleanupReq] := rfl

theorem pa_runAutoremove (v : DashboardView) :
    v.runAutoremove.1.pendingAction = v.pendingAction := by
  unfold DashboardView.runAutoremove
  try simp only []
  rw [(dlgPA_addLog _ _).2]

theorem eff_runAutoremove (v : DashboardView) :
    v.runAutoremove.2 = [Effect.AutoremoveReq] := rfl

/-- Every Update step on a message other than a dialog resolution is free of
mutating external calls. -/
theorem mutFree_Update_nondialog (v : DashboardView) (msg : Msg)
    (h : ∀ c, msg ≠ Msg.dialogMsg c) : MutFree (v.Update msg).2 := by
  intro e he
  unfold DashboardView.Update at he
  by_cases hvis : v.dialog.visible = true
  · rw [if_pos hvis] at he
    exact mutFree_dialogUpdate _ _ e he
  rw [if_neg hvis] at he
  cases msg with
  | dialogMsg c => exact absurd rfl (h c)
  | spinnerTick => simp_all [mutAction]
  | key s w => exact mutFree_handleKey _ _ _ e he
  | debouncedLoad p i =>
    simp only [] at he
    repeat' split at he
    all_goals first
      | exact mutFree_loadPackageInfo _ _ e he
      | simp_all [mutAction]
  | packageInfoLoaded info => simp_all [mutAction]
  | searchResultsMsg rs => exact mutFree_handleSearchResults _ _ e he
  | packagesLoaded => exact mutFree_handlePackagesLoaded _ e he
  | outdatedLoaded => exact mutFree_handleOutdatedLoaded _ e he
  | successView m => simp_all [mutAction]
  | errorView err => simp_all [mutAction]
  | doctorOutput lines => exact mutFree_handleDoctorOutput _ _ e he

/-! Claim C1. -/

/-- C1: for every controller event, a mutating external call (install,
uninstall, upgrade one, upgrade all, doctor, cleanup, autoremove) is emitted
only while processing the confirmation-dialog resolution event carrying
confirmed = true, with the dialog hidden and the controller's pending action
equal to that exact action's tag; no mutating call is ever issued by any
other event. -/
theorem mutationRequiresConfirmation (v : DashboardView) (ev : Event) (e : Effect)
    (a : String) (hmem : e ∈ (controllerStep v ev).2) (hmut : mutAction e = some a) :
    ev = Event.view (Msg.dialogMsg true) ∧ v.dialog.visible = false ∧ v.pendingAction = a := by
  cases ev with
  | storeInstalled packages =>
    exact (((mutFree_Update_nondialog _ Msg.packagesLoaded (by intro c h; cases h)).not_some
      hmem hmut).elim)
  | storeOutdated packages =>
    exact (((mutFree_Update_nondialog _ Msg.outdatedLoaded (by intro c h; cases h)).not_some
      hmem hmut).elim)
  | view msg =>
    cases msg with
    | dialogMsg c =>
      simp only [controllerStep, DashboardView.Update] at hmem
      by_cases hvis : v.dialog.visible = true
      · rw [if_pos hvis] at hmem
        exact ((mutFree_dialogUpdate _ _).not_some hmem hmut).elim
      · rw [if_neg hvis] at hmem
        cases c with
        | false =>
          exfalso
          unfold DashboardView.handleDialogMsg at hmem
          simp at hmem
        | true =>
          refine ⟨rfl, by simpa using hvis, ?_⟩
          unfold DashboardView.handleDialogMsg at hmem
          simp only [if_true] at hmem
          repeat' split at hmem
          all_goals
            simp_all [mutAction, DashboardView.installPackage, DashboardView.uninstallPackage,
              DashboardView.upgradePackage, DashboardView.upgradeAll, DashboardView.runDoctor,
              DashboardView.runCleanup, DashboardView.runAutoremove, DashboardView.addLog]
    | spinnerTick =>
      exact (((mutFree_Update_nondialog _ _ (by intro c h; cases h)).not_some hmem hmut).elim)
    | key s w =>
      exact (((mutFree_Update_nondialog _ _ (by intro c h; cases h)).not_some hmem hmut).elim)
    | debouncedLoad p i =>
      exact (((mutFree_Update_nondialog _ _ (by intro c h; cases h)).not_some hmem hmut).elim)
    | packageInfoLoaded info =>
      exact (((mutFree_Update_nondialog _ _ (by intro c h; cases h)).not_some hmem hmut).elim)
    | searchResultsMsg rs =>
      exact (((mutFree_Update_nondialog _ _ (by intro c h; cases h)).not_some hmem hmut).elim)
    | packagesLoaded =>
      exact (((mutFree_Update_nondialog _ _ (by intro c h; cases h)).not_some hmem hmut).elim)
    | outdatedLoaded =>
      exact (((mutFree_Update_nondialog _ _ (by intro c h; cases h)).not_some hmem hmut).elim)
    | successView m =>
      exact (((mutFree_Update_nondialog _ _ (by intro c h; cases h)).not_some hmem hmut).elim)
    | errorView err =>
      exact (((mutFree_Update_nondialog _ _ (by intro c h; cases h)).not_some hmem hmut).elim)
    | doctorOutput lines =>
      exact (((mutFree_Update_nondialog _ _ (by intro c h; cases h)).not_some hmem hmut).elim)

/-- Controller after pressing c (cleanup request) and resolving the dialog
with enter: the dialog is hidden again and pendingAction is "cleanup". -/
def c1v : DashboardView := ((v80.Update (Msg.key "c" 0)).1.Update (Msg.key "enter" 0)).1

/-- Witness for C1 at a concrete reachable state: the cleanup call emitted by
the confirmed resolution satisfies the theorem's conclusion. -/
theorem mutationRequiresConfirmation_instance :
    Event.view (Msg.dialogMsg true) = Event.view (Msg.dialogMsg true) ∧
    c1v.dialog.visible = false ∧ c1v.pendingAction = "cleanup" :=
  mutationRequiresConfirmation c1v (Event.view (Msg.dialogMsg true)) Effect.CleanupReq
    "cleanup" (by decide) (by decide)

/-! Claim C2. -/

/-- After v80 (displaying pkgA with an info request for pkgA in flight), the
operator moves down to pkgB. -/
def c2w1 : DashboardView := (v80.Update (Msg.key "down" 0)).1

/-- The debounce trigger for pkgB fires and issues its info request. -/
def c2w2 : DashboardView := (c2w1.Update (Msg.debouncedLoad (some pkgB) 1)).1

/-- pkgB's completion arrives first and is displayed. -/
def c2w3 : DashboardView := (c2w2.Update (Msg.packageInfoLoaded (some infoB))).1

/-- C2 counterexample: two info requests are in flight (pkgA's from Init,
pkgB's from the debounce trigger; pkgB is the most recently requested).  After
pkgB's completion is displayed, pkgA's out-of-order stale completion arrives —
and the code applies it, replacing the displayed detail.  Completion events
carry no debounce token and are applied unconditionally, contradicting the
claim that a stale completion leaves the displayed detail unchanged. -/
theorem staleCompletionOverwrites_cex :
    (((NewDashboardView st2).SetSize 80 24).Init).2
      = [Effect.InfoReq "jq" false, Effect.SpinnerTickEff] ∧
    (c2w1.Update (Msg.debouncedLoad (some pkgB) 1)).2 = [Effect.InfoReq "wget" false] ∧
    c2w3.packageInfo = some infoB ∧
    (c2w3.Update (Msg.packageInfoLoaded (some infoA))).1.packageInfo = some infoA ∧
    infoA ≠ infoB := by decide

/-- C2 amended: the token comparison governs only the delayed debounce
trigger — a trigger whose carried token differs from the current one is
discarded with no state change and no request.  Completion events carry no
token and (dialog hidden) unconditionally replace the displayed detail, so an
out-of-order completion of overlapping requests does overwrite it. -/
theorem completionUnconditionalTriggerGuarded (v : DashboardView)
    (info : Option PackageInfo) (p : Option Package) (t : Nat)
    (hvis : v.dialog.visible = false) (ht : t ≠ v.debounceID) :
    (v.Update (Msg.packageInfoLoaded info)).1.packageInfo = info ∧
    (v.Update (Msg.debouncedLoad p t)) = (v, []) := by
  constructor
  · unfold DashboardView.Update
    rw [if_neg (by simp [hvis])]
  · unfold DashboardView.Update
    rw [if_neg (by simp [hvis])]
    simp only []
    rw [if_neg (by simp [ht])]

/-- Witness for the amended C2 at a concrete state. -/
theorem completionUnconditionalTriggerGuarded_instance :
    (v80.Update (Msg.packageInfoLoaded none)).1.packageInfo = none ∧
    (v80.Update (Msg.debouncedLoad none 5)) = (v80, []) :=
  completionUnconditionalTriggerGuarded v80 none none 5 (by decide) (by decide)

/-! Claim C3. -/

/-- Controller after pressing d: doctor confirmation dialog visible. -/
def c3v1 : DashboardView := (v80.Update (Msg.key "d" 0)).1

/-- Controller after the dialog resolved via enter (Confirm focused): dialog
hidden, resolution command emitted, pendingAction still set. -/
def c3v2 : DashboardView := (c3v1.Update (Msg.key "enter" 0)).1

/-- C3 counterexample: processing the confirmed resolution dispatches doctor
and returns early, leaving pendingAction = "doctor" instead of clearing it —
the claim that the pending action is cleared after every resolution is false
on the confirmed-dispatch path. -/
theorem pendingActionRetained_cex :
    c3v2.dialog.visible = false ∧
    (c3v1.Update (Msg.key "enter" 0)).2 = [Effect.EmitDialogMsg true] ∧
    (c3v2.Update (Msg.dialogMsg true)).1.pendingAction = "doctor" ∧
    (c3v2.Update (Msg.dialogMsg true)).1.pendingAction ≠ "" := by decide

/-- C3 amended: after a dialog-resolution event (dialog hidden), pendingAction
is cleared unless the resolution itself dispatched the confirmed action, in
which case it keeps exactly the dispatched action's tag; and no residual
action can fire on a later, unrelated confirmation because every step that
makes the dialog visible sets pendingAction afresh to a confirmable tag. -/
theorem pendingActionClearing_amended (v u : DashboardView) (c : Bool) (msg : Msg)
    (hvis : v.dialog.visible = false) (huvis : u.dialog.visible = false)
    (hshow : (u.Update msg).1.dialog.visible = true) :
    ((v.Update (Msg.dialogMsg c)).1.pendingAction = "" ∨
      (c = true ∧ (v.Update (Msg.dialogMsg c)).1.pendingAction = v.pendingAction ∧
        ∃ e ∈ (v.Update (Msg.dialogMsg c)).2, mutAction e = some v.pendingAction)) ∧
    (u.Update msg).1.pendingAction ∈ confirmableActions := by
  refine ⟨?_, updateShowsDialog u msg huvis hshow⟩
  have hU : v.Update (Msg.dialogMsg c) = v.handleDialogMsg c := by
    unfold DashboardView.Update
    rw [if_neg (by simp [hvis])]
  rw [hU]
  cases c with
  | false =>
    left
    unfold DashboardView.handleDialogMsg
    simp
  | true =>
    unfold DashboardView.handleDialogMsg
    simp only [if_true]
    repeat' split
    · right
      refine ⟨by trivial, by rw [pa_installPackage], ?_⟩
      rw [eff_installPackage]
      simp_all [mutAction]
    · right
      refine ⟨by trivial, by rw [pa_uninstallPackage], ?_⟩
      rw [eff_uninstallPackage]
      simp_all [mutAction]
    · right
      refine ⟨by trivial, by rw [pa_upgradePackage], ?_⟩
      rw [eff_upgradePackage]
      simp_all [mutAction]
    · right
      refine ⟨by trivial, by rw [pa_upgradeAll], ?_⟩
      rw [eff_upgradeAll]
      simp_all [mutAction]
    · right
      refine ⟨by trivial, by rw [pa_runDoctor], ?_⟩
      rw [eff_runDoctor]
      simp_all [mutAction]
    · right
      refine ⟨by trivial, by rw [pa_runCleanup], ?_⟩
      rw [eff_runCleanup]
      simp_all [mutAction]
    · right
      refine ⟨by trivial, by rw [pa_runAutoremove], ?_⟩
      rw [eff_runAutoremove]
      simp_all [mutAction]
    · left
      rfl

/-- Witness for the amended C3: a cancelled resolution clears pendingAction,
and pressing d from a dialog-free state shows the dialog with a fresh
confirmable tag. -/
theorem pendingActionClearing_instance :
    ((c3v2.Update (Msg.dialogMsg false)).1.pendingAction = "" ∨
      (false = true ∧
        (c3v2.Update (Msg.dialogMsg false)).1.pendingAction = c3v2.pendingAction ∧
        ∃ e ∈ (c3v2.Update (Msg.dialogMsg false)).2, mutAction e = some c3v2.pendingAction)) ∧
    (v80.Update (Msg.key "d" 0)).1.pendingAction ∈ confirmableActions :=
  pendingActionClearing_amended c3v2 v80 false (Msg.key "d" 0)
    (by decide) (by decide) (by decide)

/-! Claim C5. -/

/-- Controller over the empty store straight after Init: an operation
("Loading packages...") is in progress. -/
def c5v0 : DashboardView := (((NewDashboardView State.NewState).SetSize 80 24).Init).1

/-- The operator presses d while the load is still in progress. -/
def c5v1 : DashboardView := (c5v0.Update (Msg.key "d" 0)).1

/-- The operator confirms with enter; the dialog emits its resolution. -/
def c5v2 : DashboardView := (c5v1.Update (Msg.key "enter" 0)).1

/-- C5 counterexample: with OperationStatus still InProgress at every step of
the trace and no completion event in between, the confirmed resolution
dispatches brew doctor — a second mutating request while the first operation
is outstanding.  The controller does not suppress duplicate dispatch while
InProgress. -/
theorem duplicateDispatchWhileInProgress_cex :
    c5v0.operationInProgress = true ∧ c5v1.operationInProgress = true ∧
    c5v2.operationInProgress = true ∧ c5v2.dialog.visible = false ∧
    (c5v2.Update (Msg.dialogMsg true)).2 = [Effect.DoctorReq] ∧
    (c5v2.Update (Msg.dialogMsg true)).1.operationInProgress = true := by decide

/-- C5 amended: while an operation is InProgress, operator key input alone
never dispatches a mutating call (the mutating bindings only open the
confirmation dialog), but dispatch is not suppressed: a confirmed resolution
with pendingAction = "doctor" issues the doctor call even though
operationInProgress is still true. -/
theorem keyDispatchGating_amended (v : DashboardView) (s : String) (w : Nat)
    (hvis : v.dialog.visible = false) (hprog : v.operationInProgress = true)
    (hact : v.pendingAction = "doctor") :
    MutFree (v.Update (Msg.key s w)).2 ∧
    (v.Update (Msg.dialogMsg true)).2 = [Effect.DoctorReq] := by
  constructor
  · exact mutFree_Update_nondialog v _ (by intro c h; cases h)
  · unfold DashboardView.Update
    rw [if_neg (by simp [hvis])]
    unfold DashboardView.handleDialogMsg
    simp only [if_true]
    repeat' split
    all_goals simp_all [mutAction, DashboardView.runDoctor, DashboardView.addLog]

/-- Witness for the amended C5 at the concrete in-progress state. -/
theorem keyDispatchGating_instance :
    MutFree (c5v2.Update (Msg.key "x" 0)).2 ∧
    (c5v2.Update (Msg.dialogMsg true)).2 = [Effect.DoctorReq] :=
  keyDispatchGating_amended c5v2 "x" 0 (by decide) (by decide) (by decide)

/-! Claim C7. -/


theorem drop_append_le {α : Type} (l1 l2 : List α) (n : Nat) (h : n ≤ l1.length) :
    (l1 ++ l2).drop n = l1.drop n ++ l2 := by
  induction l1 generalizing n with
  | nil =>
    have h0 : n = 0 := Nat.le_zero.mp h
    subst h0
    simp
  | cons a l ih =>
    cases n with
    | zero => simp
    | succ m =>
      simp only [List.cons_append, List.drop_succ_cons]
      exact ih m (Nat.le_of_succ_le_succ h)

theorem addLogList_drop (l : List String) (m : String) (h : l.length ≤ 1000) :
    addLogList l m = (l ++ [m]).drop ((l.length + 1) - 1000) := by
  unfold addLogList
  simp only [List.length_append, List.length_cons, List.length_nil]
  split
  · rfl
  · rename_i hcond
    have h0 : l.length + 1 - 1000 = 0 := by omega
    rw [h0, List.drop_zero]

theorem addLogList_length (l : List String) (m : String) (h : l.length ≤ 1000) :
    (addLogList l m).length ≤ 1000 := by
  unfold addLogList
  simp only [List.length_append, List.length_cons, List.length_nil]
  split
  · simp only [List.length_drop, List.length_append, List.length_cons, List.length_nil]
    omega
  · rename_i hcond
    simp only [List.length_append, List.length_cons, List.length_nil]
    omega

theorem addLogList_fold (msgs : List String) (l : List String) (h : l.length ≤ 1000) :
    msgs.foldl addLogList l = (l ++ msgs).drop ((l.length + msgs.length) - 1000) := by
  induction msgs generalizing l with
  | nil =>
    have h0 : l.length + 0 - 1000 = 0 := by omega
    have h1 : l.length - 1000 = 0 := by omega
    simp [h0, h1]
  | cons m ms ih =>
    simp only [List.foldl_cons]
    rw [ih _ (addLogList_length l m h)]
    by_cases hl : l.length + 1 > 1000
    · have h1000 : l.length = 1000 := by omega
      have hadd : addLogList l m = (l ++ [m]).drop 1 := by
        rw [addLogList_drop l m h, h1000]
      rw [hadd]
      have hlen2 : ((l ++ [m]).drop 1).length = 1000 := by
        simp [h1000]
      rw [hlen2]
      have hi1 : 1000 + ms.length - 1000 = ms.length := by omega
      have hi2 : l.length + (m :: ms).length - 1000 = 1 + ms.length := by
        simp only [List.length_cons]
        omega
      rw [hi1, hi2]
      have hsplit : l ++ m :: ms = (l ++ [m]) ++ ms := by simp
      rw [hsplit]
      have hdd : ((l ++ [m]) ++ ms).drop (1 + ms.length)
          = (((l ++ [m]) ++ ms).drop 1).drop ms.length := by
        rw [List.drop_drop]
      rw [hdd]
      rw [drop_append_le (l ++ [m]) ms 1 (by simp)]
    · have hadd : addLogList l m = l ++ [m] := by
        rw [addLogList_drop l m h]
        have h0 : l.length + 1 - 1000 = 0 := by omega
        rw [h0, List.drop_zero]
      rw [hadd]
      have hlen2 : (l ++ [m]).length = l.length + 1 := by simp
      rw [hlen2]
      have hsplit : l ++ m :: ms = (l ++ [m]) ++ ms := by simp
      rw [hsplit]
      have hidx : l.length + (m :: ms).length - 1000 = l.length + 1 + ms.length - 1000 := by
        simp only [List.length_cons]
        omega
      rw [hidx]

/-- C7: for every sequence of log appends starting from an empty log buffer,
the buffer holds exactly the last 1000 entries in order: it never exceeds
1000 entries, and once the 1001st entry is appended the oldest entries are
evicted first (the result is the suffix `msgs.drop (msgs.length - 1000)`, so
after appending entry 1001 entry 1 is gone and entry 2 is the oldest, with
the relative order of survivors preserved). -/
theorem logBufferRing (v : DashboardView) (msgs : List String) (h : v.logs = []) :
    (msgs.foldl DashboardView.addLog v).logs = msgs.drop (msgs.length - 1000) ∧
    (msgs.foldl DashboardView.addLog v).logs.length = min msgs.length 1000 := by
  have key : ∀ (ms : List String) (vv : DashboardView),
      (ms.foldl DashboardView.addLog vv).logs = ms.foldl addLogList vv.logs := by
    intro ms
    induction ms with
    | nil => intro vv; rfl
    | cons m ms2 ih =>
      intro vv
      simp only [List.foldl_cons]
      rw [ih]
      rfl
  constructor
  · rw [key, h]
    rw [addLogList_fold msgs [] (by simp)]
    simp
  · rw [key, h]
    rw [addLogList_fold msgs [] (by simp)]
    simp only [List.nil_append, List.length_nil, Nat.zero_add, List.length_drop]
    omega


/-- Witness for C7 at a concrete input. -/
theorem logBufferRing_instance :
    ((["a", "b"] : List String).foldl DashboardView.addLog
        (NewDashboardView State.NewState)).logs
      = (["a", "b"] : List String).drop ((["a", "b"] : List String).length - 1000) ∧
    ((["a", "b"] : List String).foldl DashboardView.addLog
        (NewDashboardView State.NewState)).logs.length
      = min (["a", "b"] : List String).length 1000 :=
  logBufferRing (NewDashboardView State.NewState) ["a", "b"] (by rfl)

/-! Claim C10. -/


/-- IsFavorite decides membership of the favorites list. -/
theorem isFavorite_iff (l : List String) (n : String) :
    State.IsFavorite l n = true ↔ n ∈ l := by
  induction l with
  | nil => simp [State.IsFavorite]
  | cons fav rest ih =>
    simp only [State.IsFavorite]
    split
    · rename_i hf
      have hfn : fav = n := by simpa using hf
      simp [hfn]
    · rename_i hf
      have hfn : ¬ fav = n := by simpa using hf
      simp only [List.mem_cons, ih]
      constructor
      · exact fun hrest => Or.inr hrest
      · intro hor
        rcases hor with hl | hr
        · exact absurd hl.symm hfn
        · exact hr

/-- Toggling an absent name appends it at the end. -/
theorem toggle_not_mem (l : List String) (n : String) (h : n ∉ l) :
    State.ToggleFavorite l n = l ++ [n] := by
  induction l with
  | nil => rfl
  | cons fav rest ih =>
    simp only [State.ToggleFavorite]
    split
    · rename_i hf
      have hfn : fav = n := by simpa using hf
      exact absurd (hfn ▸ List.mem_cons_self fav rest) h
    · rw [ih (fun hr => h (List.mem_cons_of_mem fav hr))]
      rfl

/-- Membership after toggling a present name on a duplicate-free list:
exactly the other members survive. -/
theorem toggle_mem_nodup (l : List String) (n : String) (h : l.Nodup) (hn : n ∈ l) :
    ∀ m, m ∈ State.ToggleFavorite l n ↔ (m ∈ l ∧ m ≠ n) := by
  induction l with
  | nil => cases hn
  | cons fav rest ih =>
    intro m
    simp only [State.ToggleFavorite]
    have hnodup := List.nodup_cons.mp h
    split
    · rename_i hf
      have hfn : fav = n := by simpa using hf
      subst hfn
      constructor
      · intro hm
        refine ⟨List.mem_cons_of_mem fav hm, ?_⟩
        intro hmn
        exact hnodup.1 (hmn ▸ hm)
      · intro hm
        rcases List.mem_cons.mp hm.1 with hl | hr
        · exact absurd hl hm.2
        · exact hr
    · rename_i hf
      have hfn : ¬ fav = n := by simpa using hf
      have hnrest : n ∈ rest := by
        rcases List.mem_cons.mp hn with hl | hr
        · exact absurd hl.symm hfn
        · exact hr
      simp only [List.mem_cons, ih hnodup.2 hnrest m]
      constructor
      · intro hm
        rcases hm with hl | hr
        · exact ⟨Or.inl hl, hl ▸ fun c => hfn c⟩
        · exact ⟨Or.inr hr.1, hr.2⟩
      · intro hm
        rcases hm.1 with hl | hr
        · exact Or.inl hl
        · exact Or.inr ⟨hr, hm.2⟩

/-- Toggling preserves duplicate-freedom. -/
theorem toggle_nodup (l : List String) (n : String) (h : l.Nodup) :
    (State.ToggleFavorite l n).Nodup := by
  induction l with
  | nil => simp [State.ToggleFavorite]
  | cons fav rest ih =>
    have hnodup := List.nodup_cons.mp h
    simp only [State.ToggleFavorite]
    split
    · exact hnodup.2
    · rename_i hf
      have hfn : ¬ fav = n := by simpa using hf
      refine List.nodup_cons.mpr ⟨?_, ih hnodup.2⟩
      by_cases hnr : n ∈ rest
      · intro hmem
        exact hnodup.1 ((toggle_mem_nodup rest n hnodup.2 hnr fav).mp hmem).1
      · rw [toggle_not_mem rest n hnr]
        intro hmem
        rcases List.mem_append.mp hmem with hl | hr
        · exact hnodup.1 hl
        · exact hfn (List.mem_singleton.mp hr)

/-- C10 amended: on a duplicate-free favorites list (all lists the program
builds from its empty initial list are duplicate-free, and ToggleFavorite
preserves that), ToggleFavorite(n) flips IsFavorite(n), leaves every other
name's membership unchanged, and applying it twice restores membership
(involution); with duplicates (loadable from the favorites file) the flip and
the involution fail. -/
theorem toggleFavoriteMembership_amended (l : List String) (n : String) (h : l.Nodup) :
    (State.IsFavorite (State.ToggleFavorite l n) n = !(State.IsFavorite l n)) ∧
    (∀ m, m ≠ n →
      State.IsFavorite (State.ToggleFavorite l n) m = State.IsFavorite l m) ∧
    (State.ToggleFavorite l n).Nodup ∧
    (∀ m, State.IsFavorite (State.ToggleFavorite (State.ToggleFavorite l n) n) m
        = State.IsFavorite l m) := by
  have htog := toggle_nodup l n h
  refine ⟨?_, ?_, htog, ?_⟩
  · by_cases hn : n ∈ l
    · have hnot : n ∉ State.ToggleFavorite l n :=
        fun c => ((toggle_mem_nodup l n h hn n).mp c).2 rfl
      have h1 : State.IsFavorite (State.ToggleFavorite l n) n = false := by
        rw [Bool.eq_false_iff]
        simp only [Ne, isFavorite_iff]
        exact hnot
      have h2 : State.IsFavorite l n = true := (isFavorite_iff l n).mpr hn
      rw [h1, h2]
      rfl
    · have h2 : State.IsFavorite l n = false := by
        rw [Bool.eq_false_iff]
        simp only [Ne, isFavorite_iff]
        exact hn
      have h1 : State.IsFavorite (State.ToggleFavorite l n) n = true := by
        rw [toggle_not_mem l n hn]
        simp [isFavorite_iff]
      rw [h1, h2]
      rfl
  · intro m hm
    rw [Bool.eq_iff_iff]
    by_cases hn : n ∈ l
    · simp only [isFavorite_iff, toggle_mem_nodup l n h hn m]
      exact ⟨fun p => p.1, fun p => ⟨p, hm⟩⟩
    · rw [toggle_not_mem l n hn]
      simp only [isFavorite_iff, List.mem_append, List.mem_singleton]
      exact ⟨fun p => p.elim id (fun c => absurd c hm), fun p => Or.inl p⟩
  · intro m
    rw [Bool.eq_iff_iff]
    simp only [isFavorite_iff]
    by_cases hn : n ∈ l
    · have h1 := toggle_mem_nodup l n h hn
      have hnot : n ∉ State.ToggleFavorite l n := fun c => ((h1 n).mp c).2 rfl
      rw [toggle_not_mem _ n hnot]
      simp only [List.mem_append, List.mem_singleton, h1 m]
      constructor
      · intro p
        rcases p with p | p
        · exact p.1
        · exact p ▸ hn
      · intro p
        by_cases hmn : m = n
        · exact Or.inr hmn
        · exact Or.inl ⟨p, hmn⟩
    · rw [toggle_not_mem l n hn]
      have h2 : (l ++ [n]).Nodup := by
        rw [← toggle_not_mem l n hn]
        exact htog
      have hmem : n ∈ l ++ [n] := List.mem_append.mpr (Or.inr (List.mem_singleton.mpr rfl))
      rw [show State.ToggleFavorite (l ++ [n]) n
            = State.ToggleFavorite (l ++ [n]) n from rfl]
      simp only [toggle_mem_nodup (l ++ [n]) n h2 hmem m, List.mem_append, List.mem_singleton]
      constructor
      · intro p
        rcases p.1 with q | q
        · exact q
        · exact absurd q p.2
      · intro p
        exact ⟨Or.inl p, fun c => hn (c ▸ p)⟩

/-- C10 counterexample: on the favorites list ["jq", "jq"] (duplicates are
accepted verbatim from the favorites file), toggling "jq" removes only the
first occurrence, so IsFavorite stays true instead of flipping to false, and
toggling twice ends with IsFavorite false instead of restoring the original
true. -/
theorem duplicateFavoritesToggle_cex :
    State.IsFavorite ["jq", "jq"] "jq" = true ∧
    State.IsFavorite (State.ToggleFavorite ["jq", "jq"] "jq") "jq" = true ∧
    State.IsFavorite
      (State.ToggleFavorite (State.ToggleFavorite ["jq", "jq"] "jq") "jq") "jq" = false := by
  decide


/-- Witness for the amended C10 at a concrete duplicate-free list. -/
theorem toggleFavoriteMembership_instance :
    (State.IsFavorite (State.ToggleFavorite ["git"] "jq") "jq"
        = !(State.IsFavorite ["git"] "jq")) ∧
    (∀ m, m ≠ "jq" →
      State.IsFavorite (State.ToggleFavorite ["git"] "jq") m
        = State.IsFavorite ["git"] m) ∧
    (State.ToggleFavorite ["git"] "jq").Nodup ∧
    (∀ m, State.IsFavorite
        (State.ToggleFavorite (State.ToggleFavorite ["git"] "jq") "jq") m
        = State.IsFavorite ["git"] m) :=
  toggleFavoriteMembership_amended ["git"] "jq" (by decide)


/-! Claim C8. -/

/-- Controller with a load still in progress and the doctor confirmation
dialog open. -/
def c8v : DashboardView := (v80.Update (Msg.key "d" 0)).1

/-- C8 counterexample: a failure completion that arrives while the
confirmation dialog is visible is swallowed whole by the dialog input gate —
the state is completely unchanged, so OperationStatus stays InProgress instead
of returning to Idle. -/
theorem errorSwallowedByDialog_cex :
    c8v.operationInProgress = true ∧ c8v.dialog.visible = true ∧
    (c8v.Update (Msg.errorView "brew info failed")) = (c8v, []) ∧
    (c8v.Update (Msg.errorView "brew info failed")).1.operationInProgress = true := by
  decide

/-- C8 amended: when the confirmation dialog is not visible, every failure
completion returns OperationStatus to Idle and leaves the displayed installed
list, search results, package detail and selection untouched, emitting no
external call; and a failed installed-list refresh surfaces as the app-level
error message, whose handling leaves the stored installed list (and the
dashboard) unchanged — no error terminates the controller (every handler is a
total function).  A failure arriving while the dialog is visible is swallowed
with no state change at all (so the status stays InProgress until a later
completion). -/
theorem failureReturnsToIdle_amended (v : DashboardView) (a : AppModel) (err : String)
    (hvis : v.dialog.visible = false) :
    (v.Update (Msg.errorView err)).1.operationInProgress = false ∧
    (v.Update (Msg.errorView err)).1.packageInfo = v.packageInfo ∧
    (v.Update (Msg.errorView err)).1.searchResults = v.searchResults ∧
    (v.Update (Msg.errorView err)).1.state.installedPackages = v.state.installedPackages ∧
    (v.Update (Msg.errorView err)).1.installedIndex = v.installedIndex ∧
    (v.Update (Msg.errorView err)).1.selectedPkg = v.selectedPkg ∧
    (v.Update (Msg.errorView err)).2 = [] ∧
    loadInstalledPackagesMsg (Except.error err) = AppMsg.errorApp err ∧
    (AppModel.Update a (AppMsg.errorApp err)).1.dash.state.installedPackages
      = a.dash.state.installedPackages ∧
    (AppModel.Update a (AppMsg.errorApp err)).1.dash.packageInfo = a.dash.packageInfo := by
  unfold DashboardView.Update
  rw [if_neg (by simp [hvis])]
  exact ⟨rfl, rfl, rfl, rfl, rfl, rfl, rfl, rfl, rfl, rfl⟩

/-- App model with the dashboard as the current view over `st2`. -/
def a80 : AppModel := { dash := v80, viewStack := [], currentIsDash := true }

/-- Witness for the amended C8 at a concrete state. -/
theorem failureReturnsToIdle_instance :
    (v80.Update (Msg.errorView "boom")).1.operationInProgress = false ∧
    (v80.Update (Msg.errorView "boom")).1.packageInfo = v80.packageInfo ∧
    (v80.Update (Msg.errorView "boom")).1.searchResults = v80.searchResults ∧
    (v80.Update (Msg.errorView "boom")).1.state.installedPackages
      = v80.state.installedPackages ∧
    (v80.Update (Msg.errorView "boom")).1.installedIndex = v80.installedIndex ∧
    (v80.Update (Msg.errorView "boom")).1.selectedPkg = v80.selectedPkg ∧
    (v80.Update (Msg.errorView "boom")).2 = [] ∧
    loadInstalledPackagesMsg (Except.error "boom") = AppMsg.errorApp "boom" ∧
    (AppModel.Update a80 (AppMsg.errorApp "boom")).1.dash.state.installedPackages
      = a80.dash.state.installedPackages ∧
    (AppModel.Update a80 (AppMsg.errorApp "boom")).1.dash.packageInfo
      = a80.dash.packageInfo :=
  failureReturnsToIdle_amended v80 a80 "boom" (by decide)

/-! Claim C9. -/

/-- Controller after tab: focus on the Search panel with the text input
focused. -/
def c9dash : DashboardView := (v80.Update (Msg.key "tab" 0)).1

/-- App model around `c9dash`. -/
def c9app : AppModel := { dash := c9dash, viewStack := [], currentIsDash := true }

/-- C9 (code bug): with the search input focused, the app-level global key
bindings still run first.  Typing the character q (e.g. while entering the
query jq) saves favorites and quits the program, and typing 1 navigates
views — in both cases the dashboard never sees the key and the query buffer
is unchanged, although the view itself would have routed the character into
the buffer (as it does for a forwarded character like b). -/
theorem globalKeysInterceptSearchTyping :
    c9dash.searchInputFocused = true ∧
    (AppModel.Update c9app (AppMsg.key "q" 0)).2
      = [Effect.SaveFavoritesEff [], Effect.QuitEff] ∧
    (AppModel.Update c9app (AppMsg.key "q" 0)).1 = c9app ∧
    (AppModel.Update c9app (AppMsg.key "1" 0)).2 = [Effect.NavigateEff "1"] ∧
    (AppModel.Update c9app (AppMsg.key "1" 0)).1 = c9app ∧
    (AppModel.Update c9app (AppMsg.key "b" 0)).1.dash.searchInputValue = "b" ∧
    (c9dash.Update (Msg.key "q" 0)).1.searchInputValue = "q" := by
  decide



/-! Claim C4. -/

/-- A burst of selection changes: each change runs
debouncedLoadPackageInfo, incrementing the token and scheduling a delayed
trigger; the scheduled triggers are accumulated in order. -/
def selectionBurst : DashboardView → List Package → DashboardView × List Effect
  | v, [] => (v, [])
  | v, p :: ps =>
    ((selectionBurst (v.debouncedLoadPackageInfo p).1 ps).1,
     (v.debouncedLoadPackageInfo p).2 ++ (selectionBurst (v.debouncedLoadPackageInfo p).1 ps).2)

/-- Delivery of the scheduled debounce triggers once the burst has settled
(all changes happened within the debounce delay, so every trigger fires after
the last change), collecting the effects each trigger produces. -/
def deliverTriggers : DashboardView → List Effect → DashboardView × List Effect
  | v, [] => (v, [])
  | v, Effect.TickDebounce p i :: es =>
    ((deliverTriggers (v.Update (Msg.debouncedLoad p i)).1 es).1,
     (v.Update (Msg.debouncedLoad p i)).2
       ++ (deliverTriggers (v.Update (Msg.debouncedLoad p i)).1 es).2)
  | v, _ :: es => deliverTriggers v es

theorem selectionBurst_cons (v : DashboardView) (p : Package) (ps : List Package) :
    selectionBurst v (p :: ps)
      = ((selectionBurst (v.debouncedLoadPackageInfo p).1 ps).1,
         Effect.TickDebounce (some p) (v.debounceID + 1)
           :: (selectionBurst (v.debouncedLoadPackageInfo p).1 ps).2) := rfl

theorem deliverTriggers_tick (v : DashboardView) (p : Option Package) (i : Nat)
    (es : List Effect) :
    deliverTriggers v (Effect.TickDebounce p i :: es)
      = ((deliverTriggers (v.Update (Msg.debouncedLoad p i)).1 es).1,
         (v.Update (Msg.debouncedLoad p i)).2
           ++ (deliverTriggers (v.Update (Msg.debouncedLoad p i)).1 es).2) := rfl

theorem burst_debounceID (ps : List Package) (v : DashboardView) :
    (selectionBurst v ps).1.debounceID = v.debounceID + ps.length := by
  induction ps generalizing v with
  | nil => simp [selectionBurst]
  | cons p ps ih =>
    rw [selectionBurst_cons]
    simp only [List.length_cons]
    rw [ih]
    simp only [DashboardView.debouncedLoadPackageInfo]
    omega

theorem burst_dialog (ps : List Package) (v : DashboardView) :
    (selectionBurst v ps).1.dialog = v.dialog := by
  induction ps generalizing v with
  | nil => rfl
  | cons p ps ih =>
    rw [selectionBurst_cons]
    rw [ih]
    rfl

theorem update_debounced_miss (v : DashboardView) (p : Option Package) (t : Nat)
    (hvis : v.dialog.visible = false) (ht : t ≠ v.debounceID) :
    v.Update (Msg.debouncedLoad p t) = (v, []) := by
  unfold DashboardView.Update
  rw [if_neg (by simp [hvis])]
  simp only []
  rw [if_neg (by simp [ht])]

theorem update_debounced_hit (v : DashboardView) (p : Package)
    (hvis : v.dialog.visible = false) :
    v.Update (Msg.debouncedLoad (some p) v.debounceID) = v.loadPackageInfo p := by
  unfold DashboardView.Update
  rw [if_neg (by simp [hvis])]
  simp only []
  rw [if_pos (by simp)]

/-- C4: for any burst of two or more selection changes all occurring within
the debounce delay (so every scheduled trigger fires only after the last
change), exactly one detail-load request is issued — for the last selected
package of the burst.  Each selection change increments the debounce token
(first conjunct), and a delayed trigger issues a load only when its carried
token equals the controller's current token, so all but the last trigger are
discarded silently. -/
theorem debounceCoalesces (v : DashboardView) (ps : List Package) (q : Package)
    (hvis : v.dialog.visible = false) (hlen : 2 ≤ ps.length)
    (hq : ps.getLast? = some q) :
    (selectionBurst v ps).1.debounceID = v.debounceID + ps.length ∧
    (deliverTriggers (selectionBurst v ps).1 (selectionBurst v ps).2).2
      = [Effect.InfoReq q.name (q.ptype == PackageType.Cask)] := by
  refine ⟨burst_debounceID ps v, ?_⟩
  clear hlen
  induction ps generalizing v q with
  | nil => cases hq
  | cons p ps ih =>
    cases ps with
    | nil =>
      have hq2 : q = p := by
        simp only [List.getLast?_singleton, Option.some.injEq] at hq
        exact hq.symm
      subst hq2
      rw [selectionBurst_cons]
      rw [deliverTriggers_tick]
      rw [show v.debounceID + 1
            = (selectionBurst (v.debouncedLoadPackageInfo q).1 []).1.debounceID from rfl]
      rw [update_debounced_hit _ q
        (show (selectionBurst (v.debouncedLoadPackageInfo q).1 []).1.dialog.visible = false
          from hvis)]
      rfl
    | cons p2 ps2 =>
      have hq2 : (p2 :: ps2).getLast? = some q := by
        rw [← List.getLast?_cons_cons]
        exact hq
      have hv1 : (v.debouncedLoadPackageInfo p).1.dialog.visible = false := hvis
      have hW : (selectionBurst (v.debouncedLoadPackageInfo p).1 (p2 :: ps2)).1.debounceID
          = v.debounceID + 1 + (p2 :: ps2).length := burst_debounceID (p2 :: ps2) _
      rw [selectionBurst_cons]
      rw [deliverTriggers_tick]
      rw [update_debounced_miss _ _ _
        (by rw [burst_dialog]; exact hv1)
        (by
          rw [hW]
          simp only [List.length_cons]
          omega)]
      exact ih (v.debouncedLoadPackageInfo p).1 q hv1 hq2


/-- Witness for C4: a two-change burst from `v80` issues exactly one info
request, for the second package. -/
theorem debounceCoalesces_instance :
    (selectionBurst v80 [pkgA, pkgB]).1.debounceID
      = v80.debounceID + ([pkgA, pkgB] : List Package).length ∧
    (deliverTriggers (selectionBurst v80 [pkgA, pkgB]).1
        (selectionBurst v80 [pkgA, pkgB]).2).2
      = [Effect.InfoReq pkgB.name (pkgB.ptype == PackageType.Cask)] :=
  debounceCoalesces v80 [pkgA, pkgB] pkgB (by decide) (by decide) (by decide)


/-! Claim C6. -/

/-- The PanelInv-relevant fields of the controller: height, installed panel
index and scroll, search panel index and scroll, the filtered installed list
and the search results. -/
def navFields (v : DashboardView) :
    Int × Int × Int × Int × Int × List Package × List Package :=
  (v.height, v.installedIndex, v.installedScroll, v.searchIndex, v.searchScroll,
   v.state.GetFilteredPackages, v.searchResults)

/-- The selection/scroll invariant over the extracted fields. -/
def NavInv : Int × Int × Int × Int × Int × List Package × List Package → Prop
  | (h, ii, isc, si, ssc, fl, sr) =>
    7 ≤ h ∧
    0 ≤ ii ∧ (fl.length ≠ 0 → ii < (fl.length : Int)) ∧
    0 ≤ isc ∧ isc ≤ ii ∧ ii < isc + (h - 6) ∧
    0 ≤ si ∧ (sr.length ≠ 0 → si < (sr.length : Int)) ∧
    0 ≤ ssc ∧ ssc ≤ si ∧ si < ssc + svlOf h

/-- The per-panel selection/scroll invariant of the claim, for the two panels
with a selection (installed and search): the selection index is in range when
the panel is non-empty, and the selection lies inside the visible window
determined by the scroll offset and the panel's visible-line count. -/
def PanelInv (v : DashboardView) : Prop := NavInv (navFields v)

/-- Shared state holding one sample package. -/
def st1 : State := { State.NewState with installedPackages := [pkgA], totalInstalled := 1 }

/-- Controller on an 80x5 terminal after Init with one installed package. -/
def v5 : DashboardView := (((NewDashboardView st1).SetSize 80 5).Init).1

/-- C6 counterexample: on a 5-row terminal the installed panel's visible-line
count is negative (height - 6 = -1), so the reachable post-Init state with one
package violates the claimed window invariant
scrollOffset <= index < scrollOffset + visibleLines. -/
theorem selectionWindow_cex :
    v5.state.GetFilteredPackages.length ≠ 0 ∧
    v5.installedIndex = 0 ∧ v5.installedScroll = 0 ∧
    v5.getInstalledVisibleLines = -1 ∧
    ¬(v5.installedScroll ≤ v5.installedIndex ∧
      v5.installedIndex < v5.installedScroll + v5.getInstalledVisibleLines) := by
  decide

theorem svlOf_ge2 (h : Int) : 2 ≤ svlOf h := by
  unfold svlOf
  try simp only []
  split
  · omega
  · omega

theorem instVL_eq (v : DashboardView) : v.getInstalledVisibleLines = v.height - 6 := by
  unfold DashboardView.getInstalledVisibleLines
  try simp only []
  omega

theorem searchVL_eq (v : DashboardView) : v.getSearchVisibleLines = svlOf v.height := rfl



theorem nav_updateSelected (v : DashboardView) :
    navFields v.updateSelectedPackage = navFields v := by
  unfold DashboardView.updateSelectedPackage
  try simp only []
  repeat' split
  all_goals rfl

theorem nav_loadSelected (v : DashboardView) :
    navFields v.loadSelectedPackageInfo.1 = navFields v := by
  unfold DashboardView.loadSelectedPackageInfo DashboardView.debouncedLoadPackageInfo
  try simp only []
  repeat' split
  all_goals rfl

theorem nav_loadPackageInfo (v : DashboardView) (p : Package) :
    navFields (v.loadPackageInfo p).1 = navFields v := rfl

theorem nav_handleDialogMsg (v : DashboardView) (c : Bool) :
    navFields (v.handleDialogMsg c).1 = navFields v := by
  unfold DashboardView.handleDialogMsg DashboardView.installPackage
    DashboardView.uninstallPackage DashboardView.upgradePackage DashboardView.upgradeAll
    DashboardView.runDoctor DashboardView.runCleanup DashboardView.runAutoremove
    DashboardView.addLog
  try simp only []
  repeat' split
  all_goals rfl

theorem nav_handleKeyFocused (v : DashboardView) (s : String) :
    navFields (v.handleKeyFocused s).1 = navFields v := by
  unfold DashboardView.handleKeyFocused DashboardView.performSearch
  try simp only []
  repeat' split
  all_goals rfl

theorem nav_handleKeyTab (v : DashboardView) :
    navFields v.handleKeyTab.1 = navFields v := by
  unfold DashboardView.handleKeyTab
  try simp only []
  repeat' split
  all_goals rfl

theorem nav_widgetFallthrough (v : DashboardView) (w : Nat) :
    navFields (v.widgetFallthrough w).1 = navFields v := by
  unfold DashboardView.widgetFallthrough DashboardView.loadPackageInfo
  try simp only []
  repeat' split
  all_goals rfl

theorem nav_showConfirm (v : DashboardView) (a m : String) :
    navFields (v.showConfirm a m).1 = navFields v := rfl

theorem nav_handleKeyEnter (v : DashboardView) (w : Nat) :
    navFields (v.handleKeyEnter w).1 = navFields v := by
  unfold DashboardView.handleKeyEnter
  repeat' split
  all_goals first
    | exact nav_showConfirm _ _ _
    | exact nav_widgetFallthrough _ _

theorem nav_handleKeyU (v : DashboardView) (w : Nat) :
    navFields (v.handleKeyU w).1 = navFields v := by
  unfold DashboardView.handleKeyU
  repeat' split
  all_goals first
    | exact nav_showConfirm _ _ _
    | exact nav_widgetFallthrough _ _

theorem nav_handleKeyX (v : DashboardView) (w : Nat) :
    navFields (v.handleKeyX w).1 = navFields v := by
  unfold DashboardView.handleKeyX
  repeat' split
  all_goals first
    | exact nav_showConfirm _ _ _
    | exact nav_widgetFallthrough _ _

theorem nav_handleKeyShiftU (v : DashboardView) (w : Nat) :
    navFields (v.handleKeyShiftU w).1 = navFields v := by
  unfold DashboardView.handleKeyShiftU
  try simp only []
  repeat' split
  all_goals first
    | exact nav_showConfirm _ _ _
    | exact nav_widgetFallthrough _ _
    | rfl

theorem nav_refresh (v : DashboardView) : navFields v.refresh.1 = navFields v := rfl

theorem nav_handleKeyDep (v : DashboardView) :
    v.focusedPanel = PanelType.PanelDependencies →
    navFields v.handleKeyUp.1 = navFields v ∧ navFields v.handleKeyDown.1 = navFields v := by
  intro hfp
  unfold DashboardView.handleKeyUp DashboardView.handleKeyDown
  rw [hfp]
  try simp only []
  constructor
  · repeat' split
    all_goals rfl
  · repeat' split
    all_goals rfl

theorem nav_handleOutdatedLoaded (v : DashboardView) :
    navFields v.handleOutdatedLoaded.1 = navFields v := by
  unfold DashboardView.handleOutdatedLoaded DashboardView.updateInstalledList
    DashboardView.addLog
  try simp only []
  repeat' split
  all_goals rfl

theorem nav_logFold (lines : List String) (v : DashboardView) :
    navFields (lines.foldl (fun vv line => if line.trim ≠ "" then vv.addLog line else vv) v)
      = navFields v := by
  induction lines generalizing v with
  | nil => rfl
  | cons l ls ih =>
    simp only [List.foldl_cons]
    rw [ih]
    split
    · rfl
    · rfl

theorem nav_addLog (v : DashboardView) (m : String) :
    navFields (v.addLog m) = navFields v := rfl

theorem nav_handleDoctorOutput (v : DashboardView) (lines : List String) :
    navFields (v.handleDoctorOutput lines).1 = navFields v := by
  unfold DashboardView.handleDoctorOutput
  try simp only []
  rw [nav_addLog, nav_logFold]
  rfl



/-- PanelInv transfers along equality of the relevant fields. -/
theorem panelInv_nav {u v : DashboardView} (h : navFields u = navFields v)
    (hv : PanelInv v) : PanelInv u := by
  unfold PanelInv at *
  rw [h]
  exact hv

theorem panelInv_handleKeyUp (v : DashboardView) (h : PanelInv v) :
    PanelInv v.handleKeyUp.1 := by
  have hs := svlOf_ge2 v.height
  unfold DashboardView.handleKeyUp
  try simp only []
  repeat' split
  all_goals first
    | exact h
    | exact panelInv_nav rfl h
    | (unfold PanelInv at h ⊢
       rw [nav_loadSelected, nav_updateSelected]
       simp only [NavInv, navFields] at h ⊢
       try dsimp only [DashboardView.getInstalledVisibleLines,
         DashboardView.getSearchVisibleLines, svlOf, mulPoint35Trunc] at *
       omega)

theorem panelInv_handleKeyDown (v : DashboardView) (h : PanelInv v) :
    PanelInv v.handleKeyDown.1 := by
  have hs := svlOf_ge2 v.height
  unfold DashboardView.handleKeyDown
  try simp only []
  repeat' split
  all_goals first
    | exact h
    | exact panelInv_nav rfl h
    | (unfold PanelInv at h ⊢
       rw [nav_loadSelected, nav_updateSelected]
       simp only [NavInv, navFields] at h ⊢
       try dsimp only [DashboardView.getInstalledVisibleLines,
         DashboardView.getSearchVisibleLines, svlOf, mulPoint35Trunc] at *
       omega)



theorem panelInv_handleSearchResults (v : DashboardView) (rs : List Package)
    (h : PanelInv v) : PanelInv (v.handleSearchResults rs).1 := by
  have hs := svlOf_ge2 v.height
  unfold DashboardView.handleSearchResults
  try simp only []
  repeat' split
  all_goals
    unfold PanelInv at h ⊢
  · rw [nav_loadPackageInfo]
    simp only [NavInv, navFields] at h ⊢
    try dsimp only [DashboardView.getInstalledVisibleLines,
      DashboardView.getSearchVisibleLines] at *
    simp only [List.length_cons]
    omega
  · simp only [NavInv, navFields] at h ⊢
    try dsimp only [DashboardView.getInstalledVisibleLines,
      DashboardView.getSearchVisibleLines] at *
    simp only [List.length_nil]
    omega

theorem panelInv_handlePackagesLoaded (v : DashboardView)
    (hh : 7 ≤ v.height) (h7 : 0 ≤ v.searchIndex)
    (h8 : v.searchResults.length ≠ 0 → v.searchIndex < (v.searchResults.length : Int))
    (h9 : 0 ≤ v.searchScroll) (h10 : v.searchScroll ≤ v.searchIndex)
    (h11 : v.searchIndex < v.searchScroll + svlOf v.height) :
    PanelInv v.handlePackagesLoaded.1 := by
  have hs := svlOf_ge2 v.height
  unfold DashboardView.handlePackagesLoaded DashboardView.updateInstalledList
    DashboardView.addLog
  try simp only []
  repeat' split
  all_goals unfold PanelInv
  · rw [nav_loadPackageInfo]
    simp only [NavInv, navFields]
    try dsimp only [DashboardView.getInstalledVisibleLines,
      DashboardView.getSearchVisibleLines] at *
    omega
  · simp only [NavInv, navFields]
    try dsimp only [DashboardView.getInstalledVisibleLines,
      DashboardView.getSearchVisibleLines] at *
    omega

/-- One controller step preserves the panel invariant, provided any
installed-list replacement arrives while the dialog is hidden (a replacement
swallowed by a visible dialog leaves a stale selection index behind). -/
theorem panelInv_step (v : DashboardView) (ev : Event) (h : PanelInv v)
    (hst : ∀ packages, ev = Event.storeInstalled packages → v.dialog.visible = false) :
    PanelInv (controllerStep v ev).1 := by
  have hcomp := h
  simp only [PanelInv, NavInv, navFields] at hcomp
  obtain ⟨h1, h2, h3, h4, h5, h6, h7, h8, h9, h10, h11⟩ := hcomp
  cases ev with
  | storeInstalled packages =>
    have hvis := hst packages rfl
    simp only [controllerStep]
    unfold DashboardView.Update
    rw [if_neg (by simp [hvis])]
    exact panelInv_handlePackagesLoaded _ h1 h7 h8 h9 h10 h11
  | storeOutdated packages =>
    simp only [controllerStep]
    unfold DashboardView.Update
    split
    · exact panelInv_nav rfl h
    · exact panelInv_nav ((nav_handleOutdatedLoaded _).trans rfl) h
  | view msg =>
    simp only [controllerStep]
    unfold DashboardView.Update
    by_cases hvis : v.dialog.visible = true
    · rw [if_pos hvis]
      exact panelInv_nav rfl h
    rw [if_neg hvis]
    cases msg with
    | dialogMsg c => exact panelInv_nav (nav_handleDialogMsg v c) h
    | spinnerTick => exact h
    | key s w =>
      show PanelInv (v.handleKey s w).1
      unfold DashboardView.handleKey
      by_cases k1 : v.searchInputFocused = true
      · rw [if_pos k1]; exact panelInv_nav (nav_handleKeyFocused v s) h
      rw [if_neg k1]
      by_cases k2 : keyIn s ["up", "k"] = true
      · rw [if_pos k2]; exact panelInv_handleKeyUp v h
      rw [if_neg k2]
      by_cases k3 : keyIn s ["down", "j"] = true
      · rw [if_pos k3]; exact panelInv_handleKeyDown v h
      rw [if_neg k3]
      by_cases k4 : keyIn s ["tab"] = true
      · rw [if_pos k4]; exact panelInv_nav (nav_handleKeyTab v) h
      rw [if_neg k4]
      by_cases k5 : keyIn s ["enter"] = true
      · rw [if_pos k5]; exact panelInv_nav (nav_handleKeyEnter v w) h
      rw [if_neg k5]
      by_cases k6 : keyIn s ["u"] = true
      · rw [if_pos k6]; exact panelInv_nav (nav_handleKeyU v w) h
      rw [if_neg k6]
      by_cases k7 : keyIn s ["x"] = true
      · rw [if_pos k7]; exact panelInv_nav (nav_handleKeyX v w) h
      rw [if_neg k7]
      by_cases k8 : keyIn s ["U"] = true
      · rw [if_pos k8]; exact panelInv_nav (nav_handleKeyShiftU v w) h
      rw [if_neg k8]
      by_cases k9 : keyIn s ["r"] = true
      · rw [if_pos k9]; exact panelInv_nav (nav_refresh v) h
      rw [if_neg k9]
      by_cases k10 : keyIn s ["d"] = true
      · rw [if_pos k10]; exact panelInv_nav (nav_showConfirm v _ _) h
      rw [if_neg k10]
      by_cases k11 : keyIn s ["c"] = true
      · rw [if_pos k11]; exact panelInv_nav (nav_showConfirm v _ _) h
      rw [if_neg k11]
      by_cases k12 : keyIn s ["a"] = true
      · rw [if_pos k12]; exact panelInv_nav (nav_showConfirm v _ _) h
      rw [if_neg k12]
      exact panelInv_nav (nav_widgetFallthrough v w) h
    | debouncedLoad p i =>
      show PanelInv
        (if i == v.debounceID then
          match p with
          | some pkg => v.loadPackageInfo pkg
          | none => (v, [])
        else (v, [])).1
      split
      · split
        · exact panelInv_nav (nav_loadPackageInfo _ _) h
        · exact h
      · exact h
    | packageInfoLoaded info => exact panelInv_nav rfl h
    | searchResultsMsg rs => exact panelInv_handleSearchResults v rs h
    | packagesLoaded => exact panelInv_handlePackagesLoaded v h1 h7 h8 h9 h10 h11
    | outdatedLoaded => exact panelInv_nav (nav_handleOutdatedLoaded v) h
    | successView m => exact panelInv_nav rfl h
    | errorView err => exact panelInv_nav rfl h
    | doctorOutput lines => exact panelInv_nav (nav_handleDoctorOutput v lines) h



theorem panelInv_init (st : State) (w h : Int) (hh : 7 ≤ h) :
    PanelInv (((NewDashboardView st).SetSize w h).Init).1 := by
  have hs := svlOf_ge2 h
  unfold DashboardView.Init NewDashboardView DashboardView.SetSize
    DashboardView.updateInstalledList DashboardView.addLog
  try simp only []
  repeat' split
  all_goals unfold PanelInv
  · rw [nav_loadPackageInfo]
    simp only [NavInv, navFields]
    try dsimp only [DashboardView.getInstalledVisibleLines,
      DashboardView.getSearchVisibleLines] at *
    omega
  · simp only [NavInv, navFields]
    try dsimp only [DashboardView.getInstalledVisibleLines,
      DashboardView.getSearchVisibleLines] at *
    omega

theorem runEvents_panelInv (evs : List Event) :
    ∀ v : DashboardView, PanelInv v →
      (∀ i packages, evs[i]? = some (Event.storeInstalled packages) →
        (runEvents v (evs.take i)).dialog.visible = false) →
      PanelInv (runEvents v evs) := by
  induction evs with
  | nil =>
    intro v h _
    exact h
  | cons e es ih =>
    intro v h hstore
    show PanelInv (runEvents (controllerStep v e).1 es)
    apply ih
    · apply panelInv_step v e h
      intro packages hpe
      have h0 := hstore 0 packages (by simp [hpe])
      exact h0
    · intro i packages hi
      have hsucc := hstore (i + 1) packages (by simpa using hi)
      rw [List.take_succ_cons] at hsucc
      exact hsucc



/-- C6 amended: the claimed selection/scroll invariant holds for every state
reachable by any event sequence, provided (i) the terminal height is set once
to at least 7 before the events (so the installed panel's visible-line count
height - 6 is positive; the search panel's is clamped to at least 2) and is
not changed afterwards, and (ii) every installed-list replacement arrives
while the confirmation dialog is hidden (a replacement swallowed by a visible
dialog leaves a stale selection index).  At heights below 7 the window bound
fails already at Init, and a resize that shrinks the height can push an
existing selection outside the window. -/
theorem panelSelectionInvariant_amended (st : State) (w h : Int) (evs : List Event)
    (hh : 7 ≤ h)
    (hstore : ∀ i packages, evs[i]? = some (Event.storeInstalled packages) →
      (runEvents (((NewDashboardView st).SetSize w h).Init).1 (evs.take i)).dialog.visible
        = false) :
    PanelInv (runEvents (((NewDashboardView st).SetSize w h).Init).1 evs) :=
  runEvents_panelInv evs _ (panelInv_init st w h hh) hstore

/-- Witness for the amended C6: a store-then-navigate trace on an 80x24
terminal. -/
theorem panelSelectionInvariant_instance :
    PanelInv (runEvents (((NewDashboardView st2).SetSize 80 24).Init).1
      [Event.storeInstalled [pkgA], Event.view (Msg.key "down" 0)]) :=
  panelSelectionInvariant_amended st2 80 24
    [Event.storeInstalled [pkgA], Event.view (Msg.key "down" 0)]
    (by decide)
    (by
      intro i packages hi
      match i with
      | 0 => decide
      | 1 => simp at hi
      | n + 2 => simp at hi)


end Brewst
